import Mathlib

/-!
Verification of the QA automation orchestration engine of this repository
(file qa_validation.py): a shallow embedding of its data model (APICall,
TestFlow, TestResult, the per-service health table, the engine session
state), its instrumented request primitive, its per-flow outcome
classifiers, its report summary, and the full orchestrated run, together
with theorems settling the specification claims.

Modelling conventions:
- The network is a script: a list of prearranged results consumed one per
  request, in order.  An exhausted script behaves like a connection error,
  exactly as a transport exception does in the source.
- JSON numbers are modelled as integers (every identifier the suite reads
  is integral); Python float latencies and the average latency are
  modelled as exact rationals.
- A Python attribute that may hold None is an Option; Python truthiness
  of a decoded JSON value is Json.truthy below.
- Exceptions raised inside a step (JSON decode failure, attribute or type
  errors from operating on an unexpected body shape) are modelled by the
  corresponding branch producing the FAIL outcome the source's blanket
  except clause produces; the exception message text is abbreviated.
-/

/-- JSON values as decoded by response.json(). -/
inductive Json where
  | null : Json
  | bool : Bool → Json
  | num : Int → Json
  | str : String → Json
  | arr : List Json → Json
  | obj : List (String × Json) → Json

/-- Python truthiness of a decoded JSON value. -/
def Json.truthy : Json → Bool
  | .null => false
  | .bool b => b
  | .num n => n != 0
  | .str s => s != ""
  | .arr xs => !xs.isEmpty
  | .obj kvs => !kvs.isEmpty

/-- Python str() of a value, as used for URL interpolation and error
text.  Containers are abbreviated: no claim depends on their rendering. -/
def Json.disp : Json → String
  | .null => "None"
  | .bool true => "True"
  | .bool false => "False"
  | .num n => toString n
  | .str s => s
  | .arr _ => "<list>"
  | .obj _ => "<dict>"

/-- Truthiness of an attribute that may hold None. -/
def optTruthy : Option Json → Bool
  | none => false
  | some j => j.truthy

/-- str() of an attribute that may hold None. -/
def optDisp : Option Json → String
  | none => "None"
  | some j => j.disp

/-- Substring test, modelling the Python expression needle in haystack
for strings. -/
def substrCheck (needle hay : String) : Bool :=
  needle == "" || (hay.splitOn needle).length > 1

/-- Element test for the Python expression key in data when data is a
list: a list element equals a string key exactly when it is that string. -/
def pyElemStr (k : String) : Json → Bool
  | .str s => s == k
  | _ => false

/-- Python membership test key in data: dicts test keys, lists test
elements, strings test substrings; other types raise TypeError (modelled
as the error case). -/
def pyContains (k : String) : Json → Except String Bool
  | .obj kvs => .ok (List.lookup k kvs).isSome
  | .arr xs => .ok (xs.any (pyElemStr k))
  | .str s => .ok (substrCheck k s)
  | _ => .error "TypeError"

/-- Outcome taxonomy of a flow step (the TestResult enum; display glyphs
are presentation only and omitted). -/
inductive TestResult where
  | PASS
  | FAIL
  | WARNING
  | SKIPPED
deriving DecidableEq

/-- One HTTP attempt, as logged (the APICall dataclass). -/
structure APICall where
  url : String
  method : String
  payload : Option Json
  response_code : Option Nat
  response_time : Option Rat
  service : Option String
  error : Option String

/-- One test step's record (the TestFlow dataclass). -/
structure TestFlow where
  name : String
  result : TestResult
  service : String
  apis : List APICall
  root_cause : String
  fix_applied : String

/-- A fresh TestFlow with the dataclass defaults. -/
def mkFlow (name service : String) : TestFlow :=
  { name := name, result := TestResult.SKIPPED, service := service,
    apis := [], root_cause := "", fix_applied := "" }

def setPass (f : TestFlow) : TestFlow :=
  { f with result := TestResult.PASS }

def setFail (f : TestFlow) (cause : String) : TestFlow :=
  { f with result := TestResult.FAIL, root_cause := cause }

def setWarn (f : TestFlow) (cause : String) : TestFlow :=
  { f with result := TestResult.WARNING, root_cause := cause }

/-- WARNING outcome with the root cause left untouched. -/
def setWarnK (f : TestFlow) : TestFlow :=
  { f with result := TestResult.WARNING }

def setSkip (f : TestFlow) (cause : String) : TestFlow :=
  { f with result := TestResult.SKIPPED, root_cause := cause }

/-- SKIPPED outcome with the root cause left untouched. -/
def setSkipK (f : TestFlow) : TestFlow :=
  { f with result := TestResult.SKIPPED }

/-- Per-service health entry (one row of report.api_health). -/
structure ServiceHealth where
  total : Nat
  success : Nat
  failures : Nat
  avg_latency : Rat
  latencies : List Rat
deriving DecidableEq

/-- The entry lazily created on first sight of a service tag. -/
def freshHealth : ServiceHealth :=
  { total := 0, success := 0, failures := 0, avg_latency := 0, latencies := [] }

/-- The health table: an association list keyed by service tag, new tags
appended at the end (Python dict insertion order). -/
abbrev Health := List (String × ServiceHealth)

/-- Truthy status code in the 2xx range, modelling
call.response_code and 200 less-equal call.response_code less-than 300. -/
def codeSuccess : Option Nat → Bool
  | none => false
  | some c => c != 0 && decide (200 ≤ c) && decide (c < 300)

/-- Update of one health entry by one call (the body of log_api_call). -/
def bumpService (call : APICall) (h : ServiceHealth) : ServiceHealth :=
  let h1 := { h with total := h.total + 1 }
  let h2 :=
    if codeSuccess call.response_code then
      { h1 with success := h1.success + 1 }
    else
      { h1 with failures := h1.failures + 1 }
  match call.response_time with
  | some t =>
      if t != 0 then
        let ls := h2.latencies ++ [t]
        { h2 with latencies := ls, avg_latency := ls.sum / (ls.length : Rat) }
      else h2
  | none => h2

/-- Set or append a keyed entry, preserving insertion order. -/
def setAssoc (k : String) (v : ServiceHealth) : Health → Health
  | [] => [(k, v)]
  | (k0, v0) :: rest =>
      if k0 == k then (k0, v) :: rest else (k0, v0) :: setAssoc k v rest

/-- Record one call in the health table (the api_health part of
log_api_call): lazily create the service entry and bump it. -/
def recordCall (call : APICall) (health : Health) : Health :=
  match call.service with
  | none => health
  | some s => setAssoc s (bumpService call ((List.lookup s health).getD freshHealth)) health

/-- log_api_call: append the call to the flow's list and record it in the
health table. -/
def log_api_call (call : APICall) (flow : TestFlow) (health : Health) :
    TestFlow × Health :=
  ({ flow with apis := flow.apis ++ [call] }, recordCall call health)

/-- Record a list of calls in order. -/
def foldRecord (calls : List APICall) (health : Health) : Health :=
  calls.foldl (fun acc c => recordCall c acc) health

/-- One scripted network result: a completed response (status, decoded
body or decode failure, raw text, latency) or a transport exception. -/
inductive NetResult where
  | ok : Nat → Except String Json → String → Rat → NetResult
  | exn : String → NetResult

/-- A completed HTTP response as the steps see it. -/
structure HttpResp where
  status : Nat
  body : Except String Json
  text : String

/-- Engine session state: the remaining network script, the timestamp
clock, and the QAAutomationEngine attributes. -/
structure EngineState where
  script : List NetResult
  clock : Int
  customer_token : Option Json
  admin_token : Option Json
  customer_user_id : Option Json
  admin_user_id : Option Json
  test_address_id : Option Json
  test_product_id : Option Json
  test_category_id : Option Json
  test_order_id : Option Json
  test_cart_item_id : Option Json

/-- The engine's initial state for a run: all attributes None. -/
def initState (script : List NetResult) (clock : Int) : EngineState :=
  { script := script, clock := clock, customer_token := none,
    admin_token := none, customer_user_id := none, admin_user_id := none,
    test_address_id := none, test_product_id := none,
    test_category_id := none, test_order_id := none,
    test_cart_item_id := none }

def SERVICE_A_URL : String := "http://localhost:8001"
def SERVICE_B_URL : String := "http://localhost:8002"
def SERVICE_C_URL : String := "http://localhost:8010"
def ADMIN_EMAIL : String := "admin@example.com"
def ADMIN_PASSWORD : String := "Admin@123"
def CUSTOMER_EMAIL : String := "alice@example.com"
def CUSTOMER_PASSWORD : String := "Alice@123"

/-- Short error extracted from an error response: the detail field of a
decoded JSON object, else the first 100 characters of the raw text
(covering both the decode-failure and the non-dict fallbacks). -/
def errorSummary (body : Except String Json) (text : String) : String :=
  match body with
  | Except.ok (Json.obj kvs) =>
      match List.lookup "detail" kvs with
      | some v => v.disp
      | none => text.take 100
  | _ => text.take 100

def statusStr : Option Nat → String
  | some c => "Status " ++ toString c
  | none => "Status None"

/-- Python expression a or b on an optional string and a default. -/
def orElseStr (o : Option String) (d : String) : String :=
  match o with
  | some e => if e != "" then e else d
  | none => d

/-- Root cause call.error or a formatted status code. -/
def failCause (call : APICall) : String :=
  orElseStr call.error (statusStr call.response_code)

/-- make_request: consume one scripted result.  A transport exception
yields no response, sentinel status 500 and the exception message; a
completed response is returned with its call record, the error summary
filled in for statuses of 400 and above. -/
def make_request (st : EngineState) (method url : String)
    (token : Option Json) (json_data : Option Json)
    (service : Option String) :
    Option HttpResp × APICall × EngineState :=
  match st.script with
  | [] =>
      (none,
       { url := url, method := method, payload := json_data,
         response_code := some 500, response_time := none,
         service := service, error := some "connection error" },
       st)
  | NetResult.exn msg :: rest =>
      (none,
       { url := url, method := method, payload := json_data,
         response_code := some 500, response_time := none,
         service := service, error := some msg },
       { st with script := rest })
  | NetResult.ok status body text latency :: rest =>
      (some { status := status, body := body, text := text },
       { url := url, method := method, payload := json_data,
         response_code := some status, response_time := some latency,
         service := service,
         error := if 400 ≤ status then some (errorSummary body text) else none },
       { st with script := rest })

/-- Last element of a nonempty JSON list (items[-1]). -/
def lastJson (x : Json) : List Json → Json
  | [] => x
  | y :: ys => lastJson y ys

/-- test_user_registration: POST /auth/signup, expect 201 with both
access_token and user present; missing fields give WARNING. -/
def test_user_registration (st : EngineState) (health : Health) :
    TestFlow × EngineState × Health :=
  let payload := Json.obj
    [("email", Json.str ("testuser" ++ toString st.clock ++ "@test.com")),
     ("password", Json.str "Test@123"),
     ("full_name", Json.str "Test User")]
  let (resp, call, st1) :=
    make_request st "POST" (SERVICE_A_URL ++ "/auth/signup") none (some payload) (some "A")
  let (flow1, health1) := log_api_call call (mkFlow "User Registration" "A") health
  let flow2 :=
    match resp with
    | some r =>
      if r.status = 201 then
        match r.body with
        | Except.error e => setFail flow1 e
        | Except.ok data =>
          match pyContains "access_token" data with
          | Except.error e => setFail flow1 e
          | Except.ok b1 =>
            if b1 then
              match pyContains "user" data with
              | Except.error e => setFail flow1 e
              | Except.ok b2 =>
                if b2 then setPass flow1
                else setWarn flow1 "Missing token or user in response"
            else setWarn flow1 "Missing token or user in response"
      else setFail flow1 (failCause call)
    | none => setFail flow1 (failCause call)
  (flow2, st1, health1)

/-- test_user_login: POST /auth/login, expect 200 with a truthy token and
user; on success store the token and user id into the customer or admin
session fields per the role argument; a missing token or user is FAIL. -/
def test_user_login (st : EngineState) (health : Health)
    (email password role : String) : TestFlow × EngineState × Health :=
  let payload := Json.obj [("email", Json.str email), ("password", Json.str password)]
  let (resp, call, st1) :=
    make_request st "POST" (SERVICE_A_URL ++ "/auth/login") none (some payload) (some "A")
  let (flow1, health1) :=
    log_api_call call (mkFlow ("User Login (" ++ role ++ ")") "A") health
  match resp with
  | some r =>
    if r.status = 200 then
      match r.body with
      | Except.error e => (setFail flow1 e, st1, health1)
      | Except.ok (Json.obj kvs) =>
        let token := (List.lookup "access_token" kvs).getD Json.null
        let user := (List.lookup "user" kvs).getD Json.null
        if token.truthy && user.truthy then
          match user with
          | Json.obj ukvs =>
            let uid := (List.lookup "id" ukvs).getD Json.null
            if role == "customer" then
              (setPass flow1,
               { st1 with customer_token := some token, customer_user_id := some uid },
               health1)
            else
              (setPass flow1,
               { st1 with admin_token := some token, admin_user_id := some uid },
               health1)
          | _ =>
            -- user.get raises after the token attribute was already stored
            if role == "customer" then
              (setFail flow1 "AttributeError",
               { st1 with customer_token := some token }, health1)
            else
              (setFail flow1 "AttributeError",
               { st1 with admin_token := some token }, health1)
        else (setFail flow1 "Missing token or user in response", st1, health1)
      | Except.ok _ => (setFail flow1 "AttributeError", st1, health1)
    else (setFail flow1 (failCause call), st1, health1)
  | none => (setFail flow1 (failCause call), st1, health1)

/-- test_get_current_user: needs the customer token; GET /auth/me, expect
200 with id and email present. -/
def test_get_current_user (st : EngineState) (health : Health) :
    TestFlow × EngineState × Health :=
  let flow0 := mkFlow "Get Current User" "A"
  if !optTruthy st.customer_token then
    (setSkip flow0 "No auth token", st, health)
  else
    let (resp, call, st1) :=
      make_request st "GET" (SERVICE_A_URL ++ "/auth/me") st.customer_token none (some "A")
    let (flow1, health1) := log_api_call call flow0 health
    let flow2 :=
      match resp with
      | some r =>
        if r.status = 200 then
          match r.body with
          | Except.error e => setFail flow1 e
          | Except.ok data =>
            match pyContains "id" data with
            | Except.error e => setFail flow1 e
            | Except.ok b1 =>
              if b1 then
                match pyContains "email" data with
                | Except.error e => setFail flow1 e
                | Except.ok b2 =>
                  if b2 then setPass flow1 else setWarn flow1 "Incomplete user data"
              else setWarn flow1 "Incomplete user data"
        else setFail flow1 (failCause call)
      | none => setFail flow1 (failCause call)
    (flow2, st1, health1)

/-- test_jwt_expiration_handling: GET /auth/me with the malformed token
string; 401 is PASS, anything else is WARNING. -/
def test_jwt_expiration_handling (st : EngineState) (health : Health) :
    TestFlow × EngineState × Health :=
  let (resp, call, st1) :=
    make_request st "GET" (SERVICE_A_URL ++ "/auth/me")
      (some (Json.str "invalid.jwt.token")) none (some "A")
  let (flow1, health1) := log_api_call call (mkFlow "JWT Expiration Handling" "A") health
  let flow2 :=
    match resp with
    | some r =>
        if r.status = 401 then setPass flow1
        else setWarn flow1 "Should return 401 for invalid token"
    | none => setWarn flow1 "Should return 401 for invalid token"
  (flow2, st1, health1)

/-- test_get_categories: GET /catalog/categories, expect 200 with a list
body; a nonempty list stores the first element's id as the category id. -/
def test_get_categories (st : EngineState) (health : Health) :
    TestFlow × EngineState × Health :=
  let (resp, call, st1) :=
    make_request st "GET" (SERVICE_B_URL ++ "/catalog/categories") none none (some "B")
  let (flow1, health1) := log_api_call call (mkFlow "Get Categories" "B") health
  match resp with
  | some r =>
    if r.status = 200 then
      match r.body with
      | Except.error e => (setFail flow1 e, st1, health1)
      | Except.ok (Json.arr []) => (setPass flow1, st1, health1)
      | Except.ok (Json.arr (Json.obj kvs :: _)) =>
          (setPass flow1,
           { st1 with test_category_id := some ((List.lookup "id" kvs).getD Json.null) },
           health1)
      | Except.ok (Json.arr (_ :: _)) => (setFail flow1 "AttributeError", st1, health1)
      | Except.ok _ => (setWarn flow1 "Expected array, got other type", st1, health1)
    else (setFail flow1 (failCause call), st1, health1)
  | none => (setFail flow1 (failCause call), st1, health1)

/-- test_get_products: GET /catalog/products, expect 200 with a list
body; a nonempty list stores the first element's id as the product id. -/
def test_get_products (st : EngineState) (health : Health) :
    TestFlow × EngineState × Health :=
  let (resp, call, st1) :=
    make_request st "GET" (SERVICE_B_URL ++ "/catalog/products") none none (some "B")
  let (flow1, health1) := log_api_call call (mkFlow "Get Products" "B") health
  match resp with
  | some r =>
    if r.status = 200 then
      match r.body with
      | Except.error e => (setFail flow1 e, st1, health1)
      | Except.ok (Json.arr []) => (setPass flow1, st1, health1)
      | Except.ok (Json.arr (Json.obj kvs :: _)) =>
          (setPass flow1,
           { st1 with test_product_id := some ((List.lookup "id" kvs).getD Json.null) },
           health1)
      | Except.ok (Json.arr (_ :: _)) => (setFail flow1 "AttributeError", st1, health1)
      | Except.ok _ => (setWarn flow1 "Expected array", st1, health1)
    else (setFail flow1 (failCause call), st1, health1)
  | none => (setFail flow1 (failCause call), st1, health1)

/-- test_search_products: GET /catalog/search, expect 200 with a list
body; a non-list body is WARNING without a root cause. -/
def test_search_products (st : EngineState) (health : Health) :
    TestFlow × EngineState × Health :=
  let (resp, call, st1) :=
    make_request st "GET" (SERVICE_B_URL ++ "/catalog/search?q=product") none none (some "B")
  let (flow1, health1) := log_api_call call (mkFlow "Search Products" "B") health
  let flow2 :=
    match resp with
    | some r =>
      if r.status = 200 then
        match r.body with
        | Except.error e => setFail flow1 e
        | Except.ok (Json.arr _) => setPass flow1
        | Except.ok _ => setWarnK flow1
      else setFail flow1 (failCause call)
    | none => setFail flow1 (failCause call)
  (flow2, st1, health1)

/-- test_get_product_detail: needs a product id; GET the product, expect
200 whose body contains id and name. -/
def test_get_product_detail (st : EngineState) (health : Health) :
    TestFlow × EngineState × Health :=
  let flow0 := mkFlow "Get Product Detail" "B"
  if !optTruthy st.test_product_id then
    (setSkip flow0 "No product ID available", st, health)
  else
    let (resp, call, st1) :=
      make_request st "GET"
        (SERVICE_B_URL ++ "/catalog/products/" ++ optDisp st.test_product_id)
        none none (some "B")
    let (flow1, health1) := log_api_call call flow0 health
    let flow2 :=
      match resp with
      | some r =>
        if r.status = 200 then
          match r.body with
          | Except.error e => setFail flow1 e
          | Except.ok data =>
            match pyContains "id" data with
            | Except.error e => setFail flow1 e
            | Except.ok b1 =>
              if b1 then
                match pyContains "name" data with
                | Except.error e => setFail flow1 e
                | Except.ok b2 => if b2 then setPass flow1 else setWarnK flow1
              else setWarnK flow1
        else setFail flow1 (failCause call)
      | none => setFail flow1 (failCause call)
    (flow2, st1, health1)

/-- test_create_address: needs the customer token; POST /addresses,
expect 201 and store the created id as the address id. -/
def test_create_address (st : EngineState) (health : Health) :
    TestFlow × EngineState × Health :=
  let flow0 := mkFlow "Create Address" "A"
  if !optTruthy st.customer_token then
    (setSkipK flow0, st, health)
  else
    let payload := Json.obj
      [("street", Json.str "123 Test St"), ("city", Json.str "San Francisco"),
       ("state", Json.str "CA"), ("postal_code", Json.str "94102"),
       ("country", Json.str "USA"), ("address_type", Json.str "shipping"),
       ("is_default", Json.bool true)]
    let (resp, call, st1) :=
      make_request st "POST" (SERVICE_A_URL ++ "/addresses")
        st.customer_token (some payload) (some "A")
    let (flow1, health1) := log_api_call call flow0 health
    match resp with
    | some r =>
      if r.status = 201 then
        match r.body with
        | Except.error e => (setFail flow1 e, st1, health1)
        | Except.ok (Json.obj kvs) =>
            (setPass flow1,
             { st1 with test_address_id := some ((List.lookup "id" kvs).getD Json.null) },
             health1)
        | Except.ok _ => (setFail flow1 "AttributeError", st1, health1)
      else (setFail flow1 (failCause call), st1, health1)
    | none => (setFail flow1 (failCause call), st1, health1)

/-- test_get_addresses: needs the customer token; GET /addresses, expect
200 with a list body. -/
def test_get_addresses (st : EngineState) (health : Health) :
    TestFlow × EngineState × Health :=
  let flow0 := mkFlow "Get Addresses" "A"
  if !optTruthy st.customer_token then
    (setSkipK flow0, st, health)
  else
    let (resp, call, st1) :=
      make_request st "GET" (SERVICE_A_URL ++ "/addresses")
        st.customer_token none (some "A")
    let (flow1, health1) := log_api_call call flow0 health
    let flow2 :=
      match resp with
      | some r =>
        if r.status = 200 then
          match r.body with
          | Except.error e => setFail flow1 e
          | Except.ok (Json.arr _) => setPass flow1
          | Except.ok _ => setWarnK flow1
        else setFail flow1 (failCause call)
      | none => setFail flow1 (failCause call)
    (flow2, st1, health1)

/-- test_get_cart: needs the customer token; GET /cart, expect 200 whose
body contains items. -/
def test_get_cart (st : EngineState) (health : Health) :
    TestFlow × EngineState × Health :=
  let flow0 := mkFlow "Get Cart" "A"
  if !optTruthy st.customer_token then
    (setSkipK flow0, st, health)
  else
    let (resp, call, st1) :=
      make_request st "GET" (SERVICE_A_URL ++ "/cart") st.customer_token none (some "A")
    let (flow1, health1) := log_api_call call flow0 health
    let flow2 :=
      match resp with
      | some r =>
        if r.status = 200 then
          match r.body with
          | Except.error e => setFail flow1 e
          | Except.ok data =>
            match pyContains "items" data with
            | Except.error e => setFail flow1 e
            | Except.ok b => if b then setPass flow1 else setWarnK flow1
        else setFail flow1 (failCause call)
      | none => setFail flow1 (failCause call)
    (flow2, st1, health1)

/-- test_add_to_cart: needs the customer token and a product id.  First a
preliminary product fetch whose call record is discarded (not logged);
its failure skips the step.  Then POST /cart/items built from the first
variant; 201 with a nonempty items list stores the last item's id as the
cart item id. -/
def test_add_to_cart (st : EngineState) (health : Health) :
    TestFlow × EngineState × Health :=
  let flow0 := mkFlow "Add to Cart" "A"
  if !optTruthy st.customer_token || !optTruthy st.test_product_id then
    (setSkip flow0 "Missing token or product ID", st, health)
  else
    let (presp, pcall, st1) :=
      make_request st "GET"
        (SERVICE_B_URL ++ "/catalog/products/" ++ optDisp st.test_product_id)
        none none (some "B")
    match presp with
    | none => (setSkip flow0 "Could not fetch product details", st1, health)
    | some pr =>
      if pr.status ≠ 200 then
        (setSkip flow0 "Could not fetch product details", st1, health)
      else
        match pr.body with
        | Except.error e => (setFail flow0 e, st1, health)
        | Except.ok (Json.obj pk) =>
          let variants := (List.lookup "variants" pk).getD (Json.arr [])
          if !variants.truthy then
            (setSkip flow0 "Product has no variants", st1, health)
          else
            match variants with
            | Json.arr (Json.obj vk :: _) =>
              let sku0 := (List.lookup "sku" vk).getD Json.null
              let sku :=
                if sku0.truthy then sku0
                else Json.str ("SKU-" ++ optDisp st.test_product_id)
              let payload := Json.obj
                [("product_id", (st.test_product_id).getD Json.null),
                 ("variant_id", (List.lookup "id" vk).getD Json.null),
                 ("sku", sku),
                 ("quantity", Json.num 1),
                 ("price", (List.lookup "price" vk).getD
                    ((List.lookup "base_price" pk).getD (Json.num 0)))]
              let (resp, call, st2) :=
                make_request st1 "POST" (SERVICE_A_URL ++ "/cart/items")
                  st.customer_token (some payload) (some "A")
              let (flow1, health1) := log_api_call call flow0 health
              match resp with
              | some r =>
                if r.status = 201 then
                  match r.body with
                  | Except.error e => (setFail flow1 e, st2, health1)
                  | Except.ok (Json.obj kvs) =>
                    let items := (List.lookup "items" kvs).getD (Json.arr [])
                    if !items.truthy then
                      (setWarn flow1 "Cart item created but not in response", st2, health1)
                    else
                      match items with
                      | Json.arr (x :: xs) =>
                        match lastJson x xs with
                        | Json.obj lk =>
                            let cid := some ((List.lookup "id" lk).getD Json.null)
                            (setPass flow1, { st2 with test_cart_item_id := cid }, health1)
                        | _ => (setFail flow1 "AttributeError", st2, health1)
                      | _ => (setFail flow1 "TypeError", st2, health1)
                  | Except.ok _ => (setFail flow1 "AttributeError", st2, health1)
                else (setFail flow1 (failCause call), st2, health1)
              | none => (setFail flow1 (failCause call), st2, health1)
            | Json.arr (_ :: _) => (setFail flow0 "AttributeError", st1, health)
            | _ => (setFail flow0 "TypeError", st1, health)
        | Except.ok _ => (setFail flow0 "AttributeError", st1, health)

/-- test_update_cart_item: needs the customer token and a cart item id;
PUT the item, 200 is PASS. -/
def test_update_cart_item (st : EngineState) (health : Health) :
    TestFlow × EngineState × Health :=
  let flow0 := mkFlow "Update Cart Item" "A"
  if !optTruthy st.customer_token || !optTruthy st.test_cart_item_id then
    (setSkipK flow0, st, health)
  else
    let payload := Json.obj [("quantity", Json.num 2)]
    let (resp, call, st1) :=
      make_request st "PUT"
        (SERVICE_A_URL ++ "/cart/items/" ++ optDisp st.test_cart_item_id)
        st.customer_token (some payload) (some "A")
    let (flow1, health1) := log_api_call call flow0 health
    let flow2 :=
      match resp with
      | some r => if r.status = 200 then setPass flow1 else setFail flow1 (failCause call)
      | none => setFail flow1 (failCause call)
    (flow2, st1, health1)

/-- test_remove_from_cart: needs the customer token and a cart item id;
DELETE the item, 200 is PASS.  The stored cart item id is not cleared. -/
def test_remove_from_cart (st : EngineState) (health : Health) :
    TestFlow × EngineState × Health :=
  let flow0 := mkFlow "Remove from Cart" "A"
  if !optTruthy st.customer_token || !optTruthy st.test_cart_item_id then
    (setSkipK flow0, st, health)
  else
    let (resp, call, st1) :=
      make_request st "DELETE"
        (SERVICE_A_URL ++ "/cart/items/" ++ optDisp st.test_cart_item_id)
        st.customer_token none (some "A")
    let (flow1, health1) := log_api_call call flow0 health
    let flow2 :=
      match resp with
      | some r => if r.status = 200 then setPass flow1 else setFail flow1 (failCause call)
      | none => setFail flow1 (failCause call)
    (flow2, st1, health1)

/-- test_create_payment_intent: needs the customer token and an address
id.  Without a tracked cart item id it first re-runs the add-to-cart step
inline as a repair (that inner flow is not recorded, but its calls are
logged); if the repair does not PASS the step is SKIPPED.  Then POST the
checkout endpoint, 200 whose body has client_secret and order_id is PASS
and stores the order id. -/
def test_create_payment_intent (st : EngineState) (health : Health) :
    TestFlow × EngineState × Health :=
  let flow0 := mkFlow "Create Payment Intent" "A"
  if !optTruthy st.customer_token || !optTruthy st.test_address_id then
    (setSkip flow0 "Missing token or address", st, health)
  else
    let (st1, health1, okCart) :=
      if !optTruthy st.test_cart_item_id then
        let (addFlow, sta, ha) := test_add_to_cart st health
        (sta, ha, decide (addFlow.result = TestResult.PASS))
      else (st, health, true)
    if !okCart then
      (setSkip flow0 "Could not add item to cart", st1, health1)
    else
      let payload := Json.obj
        [("shipping_address_id", (st1.test_address_id).getD Json.null),
         ("billing_address_id", (st1.test_address_id).getD Json.null)]
      let (resp, call, st2) :=
        make_request st1 "POST" (SERVICE_A_URL ++ "/checkout/create-payment-intent")
          st1.customer_token (some payload) (some "A")
      let (flow1, health2) := log_api_call call flow0 health1
      match resp with
      | some r =>
        if r.status = 200 then
          match r.body with
          | Except.error e => (setFail flow1 e, st2, health2)
          | Except.ok (Json.obj kvs) =>
            if (List.lookup "client_secret" kvs).isSome &&
               (List.lookup "order_id" kvs).isSome then
              (setPass flow1,
               { st2 with test_order_id := some ((List.lookup "order_id" kvs).getD Json.null) },
               health2)
            else (setWarn flow1 "Missing client_secret or order_id", st2, health2)
          | Except.ok (Json.arr xs) =>
            -- membership succeeds on a list, but data.get then raises
            if xs.any (pyElemStr "client_secret") && xs.any (pyElemStr "order_id") then
              (setFail flow1 "AttributeError", st2, health2)
            else (setWarn flow1 "Missing client_secret or order_id", st2, health2)
          | Except.ok (Json.str s) =>
            if substrCheck "client_secret" s && substrCheck "order_id" s then
              (setFail flow1 "AttributeError", st2, health2)
            else (setWarn flow1 "Missing client_secret or order_id", st2, health2)
          | Except.ok _ => (setFail flow1 "TypeError", st2, health2)
        else (setFail flow1 (failCause call), st2, health2)
      | none => (setFail flow1 (failCause call), st2, health2)

/-- test_get_orders: needs the customer token; GET /orders, expect 200
with a list body. -/
def test_get_orders (st : EngineState) (health : Health) :
    TestFlow × EngineState × Health :=
  let flow0 := mkFlow "Get Orders" "A"
  if !optTruthy st.customer_token then
    (setSkipK flow0, st, health)
  else
    let (resp, call, st1) :=
      make_request st "GET" (SERVICE_A_URL ++ "/orders") st.customer_token none (some "A")
    let (flow1, health1) := log_api_call call flow0 health
    let flow2 :=
      match resp with
      | some r =>
        if r.status = 200 then
          match r.body with
          | Except.error e => setFail flow1 e
          | Except.ok (Json.arr _) => setPass flow1
          | Except.ok _ => setWarnK flow1
        else setFail flow1 (failCause call)
      | none => setFail flow1 (failCause call)
    (flow2, st1, health1)

/-- test_get_order_detail: needs the customer token and an order id; GET
the order, expect 200 whose body contains id and order_number. -/
def test_get_order_detail (st : EngineState) (health : Health) :
    TestFlow × EngineState × Health :=
  let flow0 := mkFlow "Get Order Detail" "A"
  if !optTruthy st.customer_token || !optTruthy st.test_order_id then
    (setSkipK flow0, st, health)
  else
    let (resp, call, st1) :=
      make_request st "GET" (SERVICE_A_URL ++ "/orders/" ++ optDisp st.test_order_id)
        st.customer_token none (some "A")
    let (flow1, health1) := log_api_call call flow0 health
    let flow2 :=
      match resp with
      | some r =>
        if r.status = 200 then
          match r.body with
          | Except.error e => setFail flow1 e
          | Except.ok data =>
            match pyContains "id" data with
            | Except.error e => setFail flow1 e
            | Except.ok b1 =>
              if b1 then
                match pyContains "order_number" data with
                | Except.error e => setFail flow1 e
                | Except.ok b2 => if b2 then setPass flow1 else setWarnK flow1
              else setWarnK flow1
        else setFail flow1 (failCause call)
      | none => setFail flow1 (failCause call)
    (flow2, st1, health1)

/-- test_admin_create_category: needs the admin token; POST the admin
categories endpoint, expect 201 whose body contains id. -/
def test_admin_create_category (st : EngineState) (health : Health) :
    TestFlow × EngineState × Health :=
  let flow0 := mkFlow "Admin Create Category" "B"
  if !optTruthy st.admin_token then
    (setSkipK flow0, st, health)
  else
    let payload := Json.obj
      [("name", Json.str ("Test Category " ++ toString st.clock)),
       ("slug", Json.str ("test-category-" ++ toString st.clock)),
       ("description", Json.str "Test category for QA")]
    let (resp, call, st1) :=
      make_request st "POST" (SERVICE_B_URL ++ "/catalog/admin/categories")
        st.admin_token (some payload) (some "B")
    let (flow1, health1) := log_api_call call flow0 health
    let flow2 :=
      match resp with
      | some r =>
        if r.status = 201 then
          match r.body with
          | Except.error e => setFail flow1 e
          | Except.ok data =>
            match pyContains "id" data with
            | Except.error e => setFail flow1 e
            | Except.ok b => if b then setPass flow1 else setWarnK flow1
        else setFail flow1 (failCause call)
      | none => setFail flow1 (failCause call)
    (flow2, st1, health1)

/-- test_admin_update_order_status: needs the admin token and an order
id; POST the status endpoint, expect 200 whose body's status equals
packed, otherwise WARNING. -/
def test_admin_update_order_status (st : EngineState) (health : Health) :
    TestFlow × EngineState × Health :=
  let flow0 := mkFlow "Admin Update Order Status" "A"
  if !optTruthy st.admin_token || !optTruthy st.test_order_id then
    (setSkip flow0 "Missing admin token or order ID", st, health)
  else
    let payload := Json.obj [("status", Json.str "packed")]
    let (resp, call, st1) :=
      make_request st "POST"
        (SERVICE_A_URL ++ "/orders/" ++ optDisp st.test_order_id ++ "/status")
        st.admin_token (some payload) (some "A")
    let (flow1, health1) := log_api_call call flow0 health
    let flow2 :=
      match resp with
      | some r =>
        if r.status = 200 then
          match r.body with
          | Except.error e => setFail flow1 e
          | Except.ok (Json.obj kvs) =>
            match List.lookup "status" kvs with
            | some (Json.str "packed") => setPass flow1
            | _ => setWarn flow1 "Status not updated correctly"
          | Except.ok _ => setFail flow1 "AttributeError"
        else setFail flow1 (failCause call)
      | none => setFail flow1 (failCause call)
    (flow2, st1, health1)

/-- test_admin_get_all_orders: needs the admin token; GET the admin order
list, expect 200 with a list body. -/
def test_admin_get_all_orders (st : EngineState) (health : Health) :
    TestFlow × EngineState × Health :=
  let flow0 := mkFlow "Admin Get All Orders" "A"
  if !optTruthy st.admin_token then
    (setSkipK flow0, st, health)
  else
    let (resp, call, st1) :=
      make_request st "GET" (SERVICE_A_URL ++ "/orders/admin/all")
        st.admin_token none (some "A")
    let (flow1, health1) := log_api_call call flow0 health
    let flow2 :=
      match resp with
      | some r =>
        if r.status = 200 then
          match r.body with
          | Except.error e => setFail flow1 e
          | Except.ok (Json.arr _) => setPass flow1
          | Except.ok _ => setWarnK flow1
        else setFail flow1 (failCause call)
      | none => setFail flow1 (failCause call)
    (flow2, st1, health1)

/-- test_get_inventory: needs a product id.  A preliminary unlogged
product fetch discovers the first variant's SKU (its failure skips the
step); then GET the inventory endpoint, expect 200 whose body contains
quantity and available. -/
def test_get_inventory (st : EngineState) (health : Health) :
    TestFlow × EngineState × Health :=
  let flow0 := mkFlow "Get Inventory" "B"
  if !optTruthy st.test_product_id then
    (setSkip flow0 "No product ID available", st, health)
  else
    let (presp, pcall, st1) :=
      make_request st "GET"
        (SERVICE_B_URL ++ "/catalog/products/" ++ optDisp st.test_product_id)
        none none (some "B")
    match presp with
    | none => (setSkipK flow0, st1, health)
    | some pr =>
      if pr.status ≠ 200 then (setSkipK flow0, st1, health)
      else
        match pr.body with
        | Except.error e => (setFail flow0 e, st1, health)
        | Except.ok (Json.obj pk) =>
          let variants := (List.lookup "variants" pk).getD (Json.arr [])
          if !variants.truthy then
            (setSkip flow0 "Product has no variants", st1, health)
          else
            match variants with
            | Json.arr (Json.obj vk :: _) =>
              let sku0 := (List.lookup "sku" vk).getD Json.null
              let sku :=
                if sku0.truthy then sku0
                else Json.str ("SKU-" ++ optDisp st.test_product_id)
              let (resp, call, st2) :=
                make_request st1 "GET" (SERVICE_B_URL ++ "/inventory/" ++ sku.disp)
                  none none (some "B")
              let (flow1, health1) := log_api_call call flow0 health
              let flow2 :=
                match resp with
                | some r =>
                  if r.status = 200 then
                    match r.body with
                    | Except.error e => setFail flow1 e
                    | Except.ok data =>
                      match pyContains "quantity" data with
                      | Except.error e => setFail flow1 e
                      | Except.ok b1 =>
                        if b1 then
                          match pyContains "available" data with
                          | Except.error e => setFail flow1 e
                          | Except.ok b2 => if b2 then setPass flow1 else setWarnK flow1
                        else setWarnK flow1
                  else setFail flow1 (failCause call)
                | none => setFail flow1 (failCause call)
              (flow2, st2, health1)
            | Json.arr (_ :: _) => (setFail flow0 "AttributeError", st1, health)
            | _ => (setFail flow0 "TypeError", st1, health)
        | Except.ok _ => (setFail flow0 "AttributeError", st1, health)

/-- test_reserve_inventory: needs a product id.  A preliminary unlogged
product fetch discovers the SKU (its failure skips the step, without a
root cause); then POST the reservation, expect 200 with a truthy success
field, otherwise WARNING with the body's message as root cause. -/
def test_reserve_inventory (st : EngineState) (health : Health) :
    TestFlow × EngineState × Health :=
  let flow0 := mkFlow "Reserve Inventory" "B"
  if !optTruthy st.test_product_id then
    (setSkipK flow0, st, health)
  else
    let (presp, pcall, st1) :=
      make_request st "GET"
        (SERVICE_B_URL ++ "/catalog/products/" ++ optDisp st.test_product_id)
        none none (some "B")
    match presp with
    | none => (setSkipK flow0, st1, health)
    | some pr =>
      if pr.status ≠ 200 then (setSkipK flow0, st1, health)
      else
        match pr.body with
        | Except.error e => (setFail flow0 e, st1, health)
        | Except.ok (Json.obj pk) =>
          let variants := (List.lookup "variants" pk).getD (Json.arr [])
          if !variants.truthy then (setSkipK flow0, st1, health)
          else
            match variants with
            | Json.arr (Json.obj vk :: _) =>
              let sku0 := (List.lookup "sku" vk).getD Json.null
              let sku :=
                if sku0.truthy then sku0
                else Json.str ("SKU-" ++ optDisp st.test_product_id)
              let orderVal :=
                if optTruthy st1.test_order_id then (st1.test_order_id).getD Json.null
                else Json.num 999
              let payload := Json.obj
                [("items", Json.arr [Json.obj [("sku", sku), ("quantity", Json.num 1)]]),
                 ("order_id", orderVal)]
              let (resp, call, st2) :=
                make_request st1 "POST" (SERVICE_B_URL ++ "/inventory/reserve")
                  none (some payload) (some "B")
              let (flow1, health1) := log_api_call call flow0 health
              let flow2 :=
                match resp with
                | some r =>
                  if r.status = 200 then
                    match r.body with
                    | Except.error e => setFail flow1 e
                    | Except.ok (Json.obj kvs) =>
                      if ((List.lookup "success" kvs).getD Json.null).truthy then
                        setPass flow1
                      else
                        setWarn flow1
                          (((List.lookup "message" kvs).getD (Json.str "Reservation failed")).disp)
                    | Except.ok _ => setFail flow1 "AttributeError"
                  else setFail flow1 (failCause call)
                | none => setFail flow1 (failCause call)
              (flow2, st2, health1)
            | Json.arr (_ :: _) => (setFail flow0 "AttributeError", st1, health)
            | _ => (setFail flow0 "TypeError", st1, health)
        | Except.ok _ => (setFail flow0 "AttributeError", st1, health)

/-- test_notification_service: POST /notify to Service C; 200 is PASS and
any other outcome, including completed error statuses, is WARNING. -/
def test_notification_service (st : EngineState) (health : Health) :
    TestFlow × EngineState × Health :=
  let payload := Json.obj
    [("type", Json.str "ORDER_PLACED"),
     ("data", Json.obj
       [("order_id", Json.num 123), ("order_number", Json.str "ORD-123"),
        ("user_email", Json.str "test@example.com")])]
  let (resp, call, st1) :=
    make_request st "POST" (SERVICE_C_URL ++ "/notify") none (some payload) (some "C")
  let (flow1, health1) := log_api_call call (mkFlow "Notification Service" "C") health
  let flow2 :=
    match resp with
    | some r => if r.status = 200 then setPass flow1 else setWarn flow1 (failCause call)
    | none => setWarn flow1 (failCause call)
  (flow2, st1, health1)

/-- test_get_stores: GET /stores, expect 200 with a list body. -/
def test_get_stores (st : EngineState) (health : Health) :
    TestFlow × EngineState × Health :=
  let (resp, call, st1) :=
    make_request st "GET" (SERVICE_B_URL ++ "/stores") none none (some "B")
  let (flow1, health1) := log_api_call call (mkFlow "Get Stores" "B") health
  let flow2 :=
    match resp with
    | some r =>
      if r.status = 200 then
        match r.body with
        | Except.error e => setFail flow1 e
        | Except.ok (Json.arr _) => setPass flow1
        | Except.ok _ => setWarnK flow1
      else setFail flow1 (failCause call)
    | none => setFail flow1 (failCause call)
  (flow2, st1, health1)

/-- test_get_nearby_stores: GET /stores/nearby with fixed coordinates,
expect 200 with a list body. -/
def test_get_nearby_stores (st : EngineState) (health : Health) :
    TestFlow × EngineState × Health :=
  let (resp, call, st1) :=
    make_request st "GET"
      (SERVICE_B_URL ++ "/stores/nearby?lat=37.7749&lng=-122.4194&radius_km=10")
      none none (some "B")
  let (flow1, health1) := log_api_call call (mkFlow "Get Nearby Stores" "B") health
  let flow2 :=
    match resp with
    | some r =>
      if r.status = 200 then
        match r.body with
        | Except.error e => setFail flow1 e
        | Except.ok (Json.arr _) => setPass flow1
        | Except.ok _ => setWarnK flow1
      else setFail flow1 (failCause call)
    | none => setFail flow1 (failCause call)
  (flow2, st1, health1)

/-- test_get_product_reviews: needs a product id; GET the reviews, expect
200 with a list body. -/
def test_get_product_reviews (st : EngineState) (health : Health) :
    TestFlow × EngineState × Health :=
  let flow0 := mkFlow "Get Product Reviews" "B"
  if !optTruthy st.test_product_id then
    (setSkipK flow0, st, health)
  else
    let (resp, call, st1) :=
      make_request st "GET"
        (SERVICE_B_URL ++ "/reviews/product/" ++ optDisp st.test_product_id)
        none none (some "B")
    let (flow1, health1) := log_api_call call flow0 health
    let flow2 :=
      match resp with
      | some r =>
        if r.status = 200 then
          match r.body with
          | Except.error e => setFail flow1 e
          | Except.ok (Json.arr _) => setPass flow1
          | Except.ok _ => setWarnK flow1
        else setFail flow1 (failCause call)
      | none => setFail flow1 (failCause call)
    (flow2, st1, health1)

/-- test_cross_service_cart_order_flow: needs the customer token and an
address id.  Three logged sub-calls in fixed order: product fetch from
Service B, cart-add on Service A, payment-intent creation on Service A;
a failure at any sub-call is FAIL and short-circuits the remaining
calls.  PASS requires all three to succeed and order_id in the final
body.  No session-state attribute is written by this step. -/
def test_cross_service_cart_order_flow (st : EngineState) (health : Health) :
    TestFlow × EngineState × Health :=
  let flow0 := mkFlow "Cross-Service: Product - Cart - Order" "A+B"
  if !optTruthy st.customer_token || !optTruthy st.test_address_id then
    (setSkipK flow0, st, health)
  else
    let (presp, call1, st1) :=
      make_request st "GET"
        (SERVICE_B_URL ++ "/catalog/products/" ++ optDisp st.test_product_id)
        none none (some "B")
    let (flow1, health1) := log_api_call call1 flow0 health
    match presp with
    | none => (setFail flow1 "Failed to get product", st1, health1)
    | some pr =>
      if pr.status ≠ 200 then (setFail flow1 "Failed to get product", st1, health1)
      else
        match pr.body with
        | Except.error e => (setFail flow1 e, st1, health1)
        | Except.ok (Json.obj pk) =>
          let variants := (List.lookup "variants" pk).getD (Json.arr [])
          if !variants.truthy then
            (setSkip flow1 "Product has no variants", st1, health1)
          else
            match variants with
            | Json.arr (Json.obj vk :: _) =>
              let sku0 := (List.lookup "sku" vk).getD Json.null
              let sku :=
                if sku0.truthy then sku0
                else Json.str ("SKU-" ++ optDisp st.test_product_id)
              let cart_payload := Json.obj
                [("product_id", (st.test_product_id).getD Json.null),
                 ("variant_id", (List.lookup "id" vk).getD Json.null),
                 ("sku", sku),
                 ("quantity", Json.num 1),
                 ("price", (List.lookup "price" vk).getD
                    ((List.lookup "base_price" pk).getD (Json.num 0)))]
              let (cresp, call2, st2) :=
                make_request st1 "POST" (SERVICE_A_URL ++ "/cart/items")
                  st.customer_token (some cart_payload) (some "A")
              let (flow2, health2) := log_api_call call2 flow1 health1
              match cresp with
              | none => (setFail flow2 "Failed to add to cart", st2, health2)
              | some cr =>
                if cr.status ≠ 201 then
                  (setFail flow2 "Failed to add to cart", st2, health2)
                else
                  let checkout_payload := Json.obj
                    [("shipping_address_id", (st.test_address_id).getD Json.null),
                     ("billing_address_id", (st.test_address_id).getD Json.null)]
                  let (oresp, call3, st3) :=
                    make_request st2 "POST"
                      (SERVICE_A_URL ++ "/checkout/create-payment-intent")
                      st.customer_token (some checkout_payload) (some "A")
                  let (flow3, health3) := log_api_call call3 flow2 health2
                  match oresp with
                  | some orr =>
                    if orr.status = 200 then
                      match orr.body with
                      | Except.error e => (setFail flow3 e, st3, health3)
                      | Except.ok odata =>
                        match pyContains "order_id" odata with
                        | Except.error e => (setFail flow3 e, st3, health3)
                        | Except.ok b =>
                          if b then (setPass flow3, st3, health3)
                          else
                            (setWarn flow3 "Order created but missing order_id", st3, health3)
                    else
                      (setFail flow3 (orElseStr call3.error "Failed to create order"), st3, health3)
                  | none =>
                    (setFail flow3 (orElseStr call3.error "Failed to create order"), st3, health3)
            | Json.arr (_ :: _) => (setFail flow1 "AttributeError", st1, health1)
            | _ => (setFail flow1 "TypeError", st1, health1)
        | Except.ok _ => (setFail flow1 "AttributeError", st1, health1)

/-- The report summary structure. -/
structure Summary where
  total : Nat
  passed : Nat
  failed : Nat
  warnings : Nat
  skipped : Nat
  success_rate : String

/-- Round a rational to the nearest integer, ties to even.  This models
the one-decimal float formatting of the source; at an exact tie the
source's direction is decided by the nearest binary double, abstracted
here as the even choice. -/
def roundHalfEven (q : Rat) : Int :=
  let f := q.floor
  let r := q - (f : Rat)
  if r < 1/2 then f
  else if 1/2 < r then f + 1
  else if f % 2 = 0 then f else f + 1

/-- The percentage string for passed over total flows, one decimal place
and a trailing percent sign, as the report formats it. -/
def fmtPct1 (passed total : Nat) : String :=
  let tenths := roundHalfEven ((passed : Rat) * 1000 / (total : Rat))
  toString (tenths / 10) ++ "." ++ toString (tenths % 10) ++ "%"

/-- QAReport.get_summary over the recorded flow list: counts by outcome
and the success-rate string, with the zero-total case special-cased. -/
def get_summary (flows : List TestFlow) : Summary :=
  let total := flows.length
  let passed := flows.countP (fun f => decide (f.result = TestResult.PASS))
  let failed := flows.countP (fun f => decide (f.result = TestResult.FAIL))
  let warnings := flows.countP (fun f => decide (f.result = TestResult.WARNING))
  let skipped := flows.countP (fun f => decide (f.result = TestResult.SKIPPED))
  { total := total, passed := passed, failed := failed,
    warnings := warnings, skipped := skipped,
    success_rate := if 0 < total then fmtPct1 passed total else "0%" }

/-- Success rate exactly as the specification words it: the string 0% for
a zero total, otherwise passed over total as a percentage to one decimal
place.  Kept separate from get_summary so the two can be compared. -/
def specSuccessRate (passed total : Nat) : String :=
  if total = 0 then "0%" else fmtPct1 passed total

/-- A flow carrying only an outcome (used to realize arbitrary counts). -/
def onlyResult (r : TestResult) : TestFlow :=
  { name := "", result := r, service := "", apis := [],
    root_cause := "", fix_applied := "" }

/-- The inner add-to-cart repair the payment-intent step performs when no
cart item id is tracked: its flow is produced and dropped.  This mirrors
the condition structure of test_create_payment_intent. -/
def paymentDiscarded (st : EngineState) (health : Health) : List TestFlow :=
  if optTruthy st.customer_token && optTruthy st.test_address_id &&
     !optTruthy st.test_cart_item_id then
    [(test_add_to_cart st health).1]
  else []

/-- Accumulator of a run: recorded flows, produced-but-unrecorded flows,
engine state, health table. -/
abbrev RunAcc := List TestFlow × List TestFlow × EngineState × Health

/-- One report.add_flow(step()) line: run the step and record its flow. -/
def recordStep (step : EngineState → Health → TestFlow × EngineState × Health)
    (acc : RunAcc) : RunAcc :=
  let (fs, ds, st, h) := acc
  let (f, st2, h2) := step st h
  (fs ++ [f], ds, st2, h2)

/-- A bare step() line invoked only for its side effects: the produced
flow is not recorded in the report (it is kept in the unrecorded list for
accounting). -/
def sideStep (step : EngineState → Health → TestFlow × EngineState × Health)
    (acc : RunAcc) : RunAcc :=
  let (fs, ds, st, h) := acc
  let (f, st2, h2) := step st h
  (fs, ds ++ [f], st2, h2)

/-- An add_flow line whose step may itself produce unrecorded inner flows
(the payment step's inline repair), accounted by discardOf. -/
def recordStepWith (step : EngineState → Health → TestFlow × EngineState × Health)
    (discardOf : EngineState → Health → List TestFlow) (acc : RunAcc) : RunAcc :=
  let (fs, ds, st, h) := acc
  let (f, st2, h2) := step st h
  (fs ++ [f], ds ++ discardOf st h, st2, h2)

/-- run_all_tests, instrumented: every step in the fixed order of the
source; the second component collects the flows produced but not
recorded (the deliberate cart re-population before checkout, and the
payment step's inline repair). -/
def runAllAux (st0 : EngineState) : RunAcc :=
  (([], [], st0, ([] : Health)) : RunAcc)
  |> recordStep test_user_registration
  |> recordStep (fun st h => test_user_login st h CUSTOMER_EMAIL CUSTOMER_PASSWORD "customer")
  |> recordStep (fun st h => test_user_login st h ADMIN_EMAIL ADMIN_PASSWORD "admin")
  |> recordStep test_get_current_user
  |> recordStep test_jwt_expiration_handling
  |> recordStep test_get_categories
  |> recordStep test_get_products
  |> recordStep test_search_products
  |> recordStep test_get_product_detail
  |> recordStep test_create_address
  |> recordStep test_get_addresses
  |> recordStep test_get_cart
  |> recordStep test_add_to_cart
  |> recordStep test_update_cart_item
  |> recordStep test_remove_from_cart
  |> sideStep test_add_to_cart
  |> recordStepWith test_create_payment_intent paymentDiscarded
  |> recordStep test_get_orders
  |> recordStep test_get_order_detail
  |> recordStep test_admin_create_category
  |> recordStep test_admin_update_order_status
  |> recordStep test_admin_get_all_orders
  |> recordStep test_get_inventory
  |> recordStep test_reserve_inventory
  |> recordStep test_notification_service
  |> recordStep test_get_stores
  |> recordStep test_get_nearby_stores
  |> recordStep test_get_product_reviews
  |> recordStep test_cross_service_cart_order_flow

/-- run_all_tests as the source exposes it: the recorded flow list, the
final state and the health table. -/
def run_all_tests (st0 : EngineState) : List TestFlow × EngineState × Health :=
  let (fs, _, s, h) := runAllAux st0
  (fs, s, h)

/-- Total call count of a service in the health table (0 if absent). -/
def healthTotal (health : Health) (s : String) : Nat :=
  ((List.lookup s health).getD freshHealth).total

/-- Success count of a service in the health table (0 if absent). -/
def healthSuccess (health : Health) (s : String) : Nat :=
  ((List.lookup s health).getD freshHealth).success

/-- Failure count of a service in the health table (0 if absent). -/
def healthFailures (health : Health) (s : String) : Nat :=
  ((List.lookup s health).getD freshHealth).failures

/-- Number of calls in a list tagged with a service. -/
def countService (calls : List APICall) (s : String) : Nat :=
  calls.countP (fun c => decide (c.service = some s))

/-- Number of calls tagged with a service across a list of flows. -/
def flowsCount (flows : List TestFlow) (s : String) : Nat :=
  (flows.map (fun f => countService f.apis s)).sum

/-- Scripted completed response with an object body, empty text, unit
latency. -/
def okObj (status : Nat) (kvs : List (String × Json)) : NetResult :=
  NetResult.ok status (Except.ok (Json.obj kvs)) "" 1

/-- Scripted completed response with a list body, empty text, unit
latency. -/
def okArr (status : Nat) (xs : List Json) : NetResult :=
  NetResult.ok status (Except.ok (Json.arr xs)) "" 1

/-- A product body with one variant, as the catalog returns it. -/
def productBody : List (String × Json) :=
  [("variants", Json.arr
     [Json.obj [("id", Json.num 11), ("sku", Json.str "S"), ("price", Json.num 10)]])]

/-- A concrete network script for one full run: every step up to and
including the unrecorded cart re-population completes successfully, and
the script is exhausted afterwards (remaining requests behave as
connection errors). -/
def c3Script : List NetResult :=
  [okObj 201 [("access_token", Json.str "t"),
              ("user", Json.obj [("id", Json.num 1)])],
   okObj 200 [("access_token", Json.str "ct"),
              ("user", Json.obj [("id", Json.num 1)])],
   okObj 200 [("access_token", Json.str "at"),
              ("user", Json.obj [("id", Json.num 2)])],
   okObj 200 [("id", Json.num 1), ("email", Json.str "a@e.com")],
   okObj 401 [],
   okArr 200 [Json.obj [("id", Json.num 5)]],
   okArr 200 [Json.obj [("id", Json.num 7)]],
   okArr 200 [],
   okObj 200 [("id", Json.num 7), ("name", Json.str "p")],
   okObj 201 [("id", Json.num 9)],
   okArr 200 [],
   okObj 200 [("items", Json.arr [])],
   okObj 200 productBody,
   okObj 201 [("items", Json.arr [Json.obj [("id", Json.num 21)]])],
   okObj 200 [],
   okObj 200 [],
   okObj 200 productBody,
   okObj 201 [("items", Json.arr [Json.obj [("id", Json.num 22)]])]]

/-- Calls tagged with a service and a successful (2xx) status. -/
def countSuccessCalls (calls : List APICall) (s : String) : Nat :=
  calls.countP (fun c => decide (c.service = some s) && codeSuccess c.response_code)

/-- Calls tagged with a service and a non-successful status. -/
def countFailureCalls (calls : List APICall) (s : String) : Nat :=
  calls.countP (fun c => decide (c.service = some s) && !codeSuccess c.response_code)

/-- All calls of a list of flows, in order. -/
def flowsApis (flows : List TestFlow) : List APICall :=
  (flows.map TestFlow.apis).flatten

/-- The run-level accounting invariant for a service tag: health total
equals recorded-flow calls plus unrecorded-flow calls. -/
def healthInv (s : String) (acc : RunAcc) : Prop :=
  healthTotal acc.2.2.2 s = flowsCount acc.1 s + flowsCount acc.2.1 s

/-- A successful call to service A (for witnesses). -/
def callOkA : APICall :=
  { url := "u", method := "GET", payload := none, response_code := some 200,
    response_time := some 1, service := some "A", error := none }

/-- A failed call to service A (for witnesses). -/
def callErrA : APICall :=
  { url := "u", method := "GET", payload := none, response_code := some 500,
    response_time := some 1, service := some "A", error := some "e" }

/-- A state for the product-detail counterexample: a product id is
tracked and the fetch returns a 200 list body whose elements are the
strings id and name. -/
def c8State : EngineState :=
  { initState
      [NetResult.ok 200 (Except.ok (Json.arr [Json.str "id", Json.str "name"])) "" 1] 0
    with test_product_id := some (Json.num 7) }

/-- The concrete script for the cross-service counterexample: product
fetch succeeds with one variant, cart-add returns 201, payment-intent
returns 200 with an order id. -/
def c6Script : List NetResult :=
  [okObj 200 productBody, okObj 201 [], okObj 200 [("order_id", Json.num 31)]]

/-- The engine state entering the cross-service step: customer token,
address id and product id tracked, no order or cart-item id. -/
def c6State : EngineState :=
  { script := c6Script, clock := 0, customer_token := some (Json.str "t"),
    admin_token := none, customer_user_id := none, admin_user_id := none,
    test_address_id := some (Json.num 9), test_product_id := some (Json.num 7),
    test_category_id := none, test_order_id := none, test_cart_item_id := none }

theorem lookup_setAssoc (k : String) (v : ServiceHealth) (h : Health) (s : String) :
    List.lookup s (setAssoc k v h) = if s = k then some v else List.lookup s h := by
  induction h with
  | nil =>
      by_cases hs : s = k
      · simp [setAssoc, List.lookup, hs]
      · have hb : (s == k) = false := beq_eq_false_iff_ne.mpr hs
        simp [setAssoc, List.lookup, hs, hb]
  | cons p rest ih =>
      obtain ⟨k0, v0⟩ := p
      by_cases hk : k0 = k
      · subst hk
        by_cases hs : s = k0
        · simp [setAssoc, List.lookup, hs]
        · have hb : (s == k0) = false := beq_eq_false_iff_ne.mpr hs
          simp [setAssoc, List.lookup, hs, hb]
      · have hbk : (k0 == k) = false := beq_eq_false_iff_ne.mpr hk
        by_cases hs : s = k0
        · subst hs
          have hsk : ¬s = k := hk
          simp [setAssoc, List.lookup, hbk, hsk]
        · have hb : (s == k0) = false := beq_eq_false_iff_ne.mpr hs
          simp [setAssoc, List.lookup, hbk, hb, ih]

theorem bumpService_total (c : APICall) (h : ServiceHealth) :
    (bumpService c h).total = h.total + 1 := by
  simp only [bumpService]
  split <;> split <;> (try split) <;> simp_all

theorem bumpService_success (c : APICall) (h : ServiceHealth) :
    (bumpService c h).success =
      h.success + (if codeSuccess c.response_code then 1 else 0) := by
  simp only [bumpService]
  split <;> split <;> (try split) <;> simp_all

theorem bumpService_failures (c : APICall) (h : ServiceHealth) :
    (bumpService c h).failures =
      h.failures + (if codeSuccess c.response_code then 0 else 1) := by
  simp only [bumpService]
  split <;> split <;> (try split) <;> simp_all

theorem healthTotal_recordCall (c : APICall) (h : Health) (s : String) :
    healthTotal (recordCall c h) s =
      healthTotal h s + (if c.service = some s then 1 else 0) := by
  unfold healthTotal recordCall
  cases hc : c.service with
  | none => simp
  | some t =>
      rw [lookup_setAssoc]
      by_cases hs : s = t
      · subst hs
        simp [bumpService_total]
      · rw [if_neg hs, if_neg (fun h' => hs (Option.some.inj h').symm)]
        rw [Nat.add_zero]

theorem healthSuccess_recordCall (c : APICall) (h : Health) (s : String) :
    healthSuccess (recordCall c h) s =
      healthSuccess h s +
        (if c.service = some s ∧ codeSuccess c.response_code then 1 else 0) := by
  unfold healthSuccess recordCall
  cases hc : c.service with
  | none => simp
  | some t =>
      rw [lookup_setAssoc]
      by_cases hs : s = t
      · subst hs
        by_cases hcs : codeSuccess c.response_code = true <;>
          simp [bumpService_success, hcs]
      · rw [if_neg hs, if_neg (fun h' => hs (Option.some.inj (And.left h')).symm)]
        rw [Nat.add_zero]

theorem healthFailures_recordCall (c : APICall) (h : Health) (s : String) :
    healthFailures (recordCall c h) s =
      healthFailures h s +
        (if c.service = some s ∧ ¬codeSuccess c.response_code then 1 else 0) := by
  unfold healthFailures recordCall
  cases hc : c.service with
  | none => simp
  | some t =>
      rw [lookup_setAssoc]
      by_cases hs : s = t
      · subst hs
        by_cases hcs : codeSuccess c.response_code = true <;>
          simp [bumpService_failures, hcs]
      · rw [if_neg hs, if_neg (fun h' => hs (Option.some.inj (And.left h')).symm)]
        rw [Nat.add_zero]

theorem foldRecord_append (a b : List APICall) (h : Health) :
    foldRecord (a ++ b) h = foldRecord b (foldRecord a h) := by
  simp [foldRecord, List.foldl_append]

theorem healthTotal_foldRecord (l : List APICall) (h : Health) (s : String) :
    healthTotal (foldRecord l h) s = healthTotal h s + countService l s := by
  induction l generalizing h with
  | nil => simp [foldRecord, countService]
  | cons c rest ih =>
      have hstep : foldRecord (c :: rest) h = foldRecord rest (recordCall c h) := rfl
      rw [hstep, ih, healthTotal_recordCall]
      simp only [countService, List.countP_cons]
      by_cases hcs : c.service = some s <;> simp [hcs] <;> omega

theorem healthSuccess_foldRecord (l : List APICall) (h : Health) (s : String) :
    healthSuccess (foldRecord l h) s = healthSuccess h s + countSuccessCalls l s := by
  induction l generalizing h with
  | nil => simp [foldRecord, countSuccessCalls]
  | cons c rest ih =>
      have hstep : foldRecord (c :: rest) h = foldRecord rest (recordCall c h) := rfl
      rw [hstep, ih, healthSuccess_recordCall]
      simp only [countSuccessCalls, List.countP_cons]
      by_cases hcs : c.service = some s <;>
        by_cases hok : codeSuccess c.response_code = true <;>
          simp [hcs, hok] <;> omega

theorem healthFailures_foldRecord (l : List APICall) (h : Health) (s : String) :
    healthFailures (foldRecord l h) s = healthFailures h s + countFailureCalls l s := by
  induction l generalizing h with
  | nil => simp [foldRecord, countFailureCalls]
  | cons c rest ih =>
      have hstep : foldRecord (c :: rest) h = foldRecord rest (recordCall c h) := rfl
      rw [hstep, ih, healthFailures_recordCall]
      simp only [countFailureCalls, List.countP_cons]
      by_cases hcs : c.service = some s <;>
        by_cases hok : codeSuccess c.response_code = true <;>
          simp [hcs, hok] <;> omega

theorem flowsCount_eq_countService (fs : List TestFlow) (s : String) :
    flowsCount fs s = countService (flowsApis fs) s := by
  induction fs with
  | nil => simp [flowsCount, flowsApis, countService]
  | cons f rest ih =>
      simp only [flowsCount, flowsApis, countService, List.map_cons, List.sum_cons,
        List.flatten_cons, List.countP_append] at *
      omega

theorem health_step_get_stores (st : EngineState) (h : Health) :
    (test_get_stores st h).2.2 = foldRecord (test_get_stores st h).1.apis h := by
  obtain ⟨sc, clk, a1, a2, a3, a4, a5, a6, a7, a8, a9⟩ := st
  cases sc with
  | nil => rfl
  | cons r rest =>
      cases r with
      | exn m => rfl
      | ok status body text lat =>
          dsimp only [test_get_stores, make_request, log_api_call]
          split <;> (try split) <;> (try split) <;> (try split) <;> rfl

theorem health_step_user_registration (st : EngineState) (h : Health) :
    (test_user_registration st h).2.2 = foldRecord (test_user_registration st h).1.apis h := by
  obtain ⟨sc, clk, a1, a2, a3, a4, a5, a6, a7, a8, a9⟩ := st
  dsimp only [test_user_registration, make_request, log_api_call]
  repeat' split
  all_goals rfl

theorem health_step_get_current_user (st : EngineState) (h : Health) :
    (test_get_current_user st h).2.2 = foldRecord (test_get_current_user st h).1.apis h := by
  obtain ⟨sc, clk, a1, a2, a3, a4, a5, a6, a7, a8, a9⟩ := st
  dsimp only [test_get_current_user, make_request, log_api_call]
  repeat' split
  all_goals rfl

theorem health_step_jwt_expiration_handling (st : EngineState) (h : Health) :
    (test_jwt_expiration_handling st h).2.2 = foldRecord (test_jwt_expiration_handling st h).1.apis h := by
  obtain ⟨sc, clk, a1, a2, a3, a4, a5, a6, a7, a8, a9⟩ := st
  dsimp only [test_jwt_expiration_handling, make_request, log_api_call]
  repeat' split
  all_goals rfl

theorem health_step_get_categories (st : EngineState) (h : Health) :
    (test_get_categories st h).2.2 = foldRecord (test_get_categories st h).1.apis h := by
  obtain ⟨sc, clk, a1, a2, a3, a4, a5, a6, a7, a8, a9⟩ := st
  dsimp only [test_get_categories, make_request, log_api_call]
  repeat' split
  all_goals rfl

theorem health_step_get_products (st : EngineState) (h : Health) :
    (test_get_products st h).2.2 = foldRecord (test_get_products st h).1.apis h := by
  obtain ⟨sc, clk, a1, a2, a3, a4, a5, a6, a7, a8, a9⟩ := st
  dsimp only [test_get_products, make_request, log_api_call]
  repeat' split
  all_goals rfl

theorem health_step_search_products (st : EngineState) (h : Health) :
    (test_search_products st h).2.2 = foldRecord (test_search_products st h).1.apis h := by
  obtain ⟨sc, clk, a1, a2, a3, a4, a5, a6, a7, a8, a9⟩ := st
  dsimp only [test_search_products, make_request, log_api_call]
  repeat' split
  all_goals rfl

theorem health_step_get_product_detail (st : EngineState) (h : Health) :
    (test_get_product_detail st h).2.2 = foldRecord (test_get_product_detail st h).1.apis h := by
  obtain ⟨sc, clk, a1, a2, a3, a4, a5, a6, a7, a8, a9⟩ := st
  dsimp only [test_get_product_detail, make_request, log_api_call]
  repeat' split
  all_goals rfl

theorem health_step_create_address (st : EngineState) (h : Health) :
    (test_create_address st h).2.2 = foldRecord (test_create_address st h).1.apis h := by
  obtain ⟨sc, clk, a1, a2, a3, a4, a5, a6, a7, a8, a9⟩ := st
  dsimp only [test_create_address, make_request, log_api_call]
  repeat' split
  all_goals rfl

theorem health_step_get_addresses (st : EngineState) (h : Health) :
    (test_get_addresses st h).2.2 = foldRecord (test_get_addresses st h).1.apis h := by
  obtain ⟨sc, clk, a1, a2, a3, a4, a5, a6, a7, a8, a9⟩ := st
  dsimp only [test_get_addresses, make_request, log_api_call]
  repeat' split
  all_goals rfl

theorem health_step_get_cart (st : EngineState) (h : Health) :
    (test_get_cart st h).2.2 = foldRecord (test_get_cart st h).1.apis h := by
  obtain ⟨sc, clk, a1, a2, a3, a4, a5, a6, a7, a8, a9⟩ := st
  dsimp only [test_get_cart, make_request, log_api_call]
  repeat' split
  all_goals rfl

set_option maxHeartbeats 2000000 in
theorem health_step_add_to_cart (st : EngineState) (h : Health) :
    (test_add_to_cart st h).2.2 = foldRecord (test_add_to_cart st h).1.apis h := by
  obtain ⟨sc, clk, a1, a2, a3, a4, a5, a6, a7, a8, a9⟩ := st
  dsimp only [test_add_to_cart, make_request, log_api_call]
  by_cases hg : (!optTruthy a1 || !optTruthy a6) = true
  · rw [if_pos hg]
    try rfl
  · rw [if_neg hg]
    cases sc with
    | nil => rfl
    | cons r rest =>
        cases r with
        | exn m => rfl
        | ok status body text lat =>
            cases rest with
            | nil =>
                     dsimp only
                     repeat' split
                     all_goals rfl
            | cons r2 rest2 =>
                cases r2 with
                | exn m2 =>
                            dsimp only
                            repeat' split
                            all_goals rfl
                | ok s2 b2 t2 l2 =>
                                    dsimp only
                                    repeat' split
                                    all_goals rfl

theorem health_step_update_cart_item (st : EngineState) (h : Health) :
    (test_update_cart_item st h).2.2 = foldRecord (test_update_cart_item st h).1.apis h := by
  obtain ⟨sc, clk, a1, a2, a3, a4, a5, a6, a7, a8, a9⟩ := st
  dsimp only [test_update_cart_item, make_request, log_api_call]
  repeat' split
  all_goals rfl

theorem health_step_remove_from_cart (st : EngineState) (h : Health) :
    (test_remove_from_cart st h).2.2 = foldRecord (test_remove_from_cart st h).1.apis h := by
  obtain ⟨sc, clk, a1, a2, a3, a4, a5, a6, a7, a8, a9⟩ := st
  dsimp only [test_remove_from_cart, make_request, log_api_call]
  repeat' split
  all_goals rfl

theorem health_step_get_orders (st : EngineState) (h : Health) :
    (test_get_orders st h).2.2 = foldRecord (test_get_orders st h).1.apis h := by
  obtain ⟨sc, clk, a1, a2, a3, a4, a5, a6, a7, a8, a9⟩ := st
  dsimp only [test_get_orders, make_request, log_api_call]
  repeat' split
  all_goals rfl

theorem health_step_get_order_detail (st : EngineState) (h : Health) :
    (test_get_order_detail st h).2.2 = foldRecord (test_get_order_detail st h).1.apis h := by
  obtain ⟨sc, clk, a1, a2, a3, a4, a5, a6, a7, a8, a9⟩ := st
  dsimp only [test_get_order_detail, make_request, log_api_call]
  repeat' split
  all_goals rfl

theorem health_step_admin_create_category (st : EngineState) (h : Health) :
    (test_admin_create_category st h).2.2 = foldRecord (test_admin_create_category st h).1.apis h := by
  obtain ⟨sc, clk, a1, a2, a3, a4, a5, a6, a7, a8, a9⟩ := st
  dsimp only [test_admin_create_category, make_request, log_api_call]
  repeat' split
  all_goals rfl

theorem health_step_admin_update_order_status (st : EngineState) (h : Health) :
    (test_admin_update_order_status st h).2.2 = foldRecord (test_admin_update_order_status st h).1.apis h := by
  obtain ⟨sc, clk, a1, a2, a3, a4, a5, a6, a7, a8, a9⟩ := st
  dsimp only [test_admin_update_order_status, make_request, log_api_call]
  repeat' split
  all_goals rfl

theorem health_step_admin_get_all_orders (st : EngineState) (h : Health) :
    (test_admin_get_all_orders st h).2.2 = foldRecord (test_admin_get_all_orders st h).1.apis h := by
  obtain ⟨sc, clk, a1, a2, a3, a4, a5, a6, a7, a8, a9⟩ := st
  dsimp only [test_admin_get_all_orders, make_request, log_api_call]
  repeat' split
  all_goals rfl

set_option maxHeartbeats 2000000 in
theorem health_step_get_inventory (st : EngineState) (h : Health) :
    (test_get_inventory st h).2.2 = foldRecord (test_get_inventory st h).1.apis h := by
  obtain ⟨sc, clk, a1, a2, a3, a4, a5, a6, a7, a8, a9⟩ := st
  dsimp only [test_get_inventory, make_request, log_api_call]
  by_cases hg : (!optTruthy a6) = true
  · rw [if_pos hg]
    try rfl
  · rw [if_neg hg]
    cases sc with
    | nil => rfl
    | cons r rest =>
        cases r with
        | exn m => rfl
        | ok status body text lat =>
            cases rest with
            | nil =>
                     dsimp only
                     repeat' split
                     all_goals rfl
            | cons r2 rest2 =>
                cases r2 with
                | exn m2 =>
                            dsimp only
                            repeat' split
                            all_goals rfl
                | ok s2 b2 t2 l2 =>
                                    dsimp only
                                    repeat' split
                                    all_goals rfl

set_option maxHeartbeats 2000000 in
theorem health_step_reserve_inventory (st : EngineState) (h : Health) :
    (test_reserve_inventory st h).2.2 = foldRecord (test_reserve_inventory st h).1.apis h := by
  obtain ⟨sc, clk, a1, a2, a3, a4, a5, a6, a7, a8, a9⟩ := st
  dsimp only [test_reserve_inventory, make_request, log_api_call]
  by_cases hg : (!optTruthy a6) = true
  · rw [if_pos hg]
    try rfl
  · rw [if_neg hg]
    cases sc with
    | nil => rfl
    | cons r rest =>
        cases r with
        | exn m => rfl
        | ok status body text lat =>
            cases rest with
            | nil =>
                     dsimp only
                     repeat' split
                     all_goals rfl
            | cons r2 rest2 =>
                cases r2 with
                | exn m2 =>
                            dsimp only
                            repeat' split
                            all_goals rfl
                | ok s2 b2 t2 l2 =>
                                    dsimp only
                                    repeat' split
                                    all_goals rfl

theorem health_step_notification_service (st : EngineState) (h : Health) :
    (test_notification_service st h).2.2 = foldRecord (test_notification_service st h).1.apis h := by
  obtain ⟨sc, clk, a1, a2, a3, a4, a5, a6, a7, a8, a9⟩ := st
  dsimp only [test_notification_service, make_request, log_api_call]
  repeat' split
  all_goals rfl

theorem health_step_get_nearby_stores (st : EngineState) (h : Health) :
    (test_get_nearby_stores st h).2.2 = foldRecord (test_get_nearby_stores st h).1.apis h := by
  obtain ⟨sc, clk, a1, a2, a3, a4, a5, a6, a7, a8, a9⟩ := st
  dsimp only [test_get_nearby_stores, make_request, log_api_call]
  repeat' split
  all_goals rfl

theorem health_step_get_product_reviews (st : EngineState) (h : Health) :
    (test_get_product_reviews st h).2.2 = foldRecord (test_get_product_reviews st h).1.apis h := by
  obtain ⟨sc, clk, a1, a2, a3, a4, a5, a6, a7, a8, a9⟩ := st
  dsimp only [test_get_product_reviews, make_request, log_api_call]
  repeat' split
  all_goals rfl

set_option maxHeartbeats 2000000 in
theorem health_step_cross_service_cart_order_flow (st : EngineState) (h : Health) :
    (test_cross_service_cart_order_flow st h).2.2 = foldRecord (test_cross_service_cart_order_flow st h).1.apis h := by
  obtain ⟨sc, clk, a1, a2, a3, a4, a5, a6, a7, a8, a9⟩ := st
  dsimp only [test_cross_service_cart_order_flow, make_request, log_api_call]
  by_cases hg : (!optTruthy a1 || !optTruthy a5) = true
  · rw [if_pos hg]
    try rfl
  · rw [if_neg hg]
    cases sc with
    | nil => rfl
    | cons r rest =>
        cases r with
        | exn m => rfl
        | ok status body text lat =>
            cases rest with
            | nil =>
                     dsimp only
                     repeat' split
                     all_goals rfl
            | cons r2 rest2 =>
                cases r2 with
                | exn m2 =>
                            dsimp only
                            repeat' split
                            all_goals rfl
                | ok s2 b2 t2 l2 =>
                    cases rest2 with
                    | nil =>
                             dsimp only
                             repeat' split
                             all_goals rfl
                    | cons r3 rest3 =>
                        cases r3 with
                        | exn m3 =>
                                    dsimp only
                                    repeat' split
                                    all_goals rfl
                        | ok s3 b3 t3 l3 =>
                                            dsimp only
                                            repeat' split
                                            all_goals rfl

theorem health_step_user_login (st : EngineState) (h : Health)
    (email password role : String) :
    (test_user_login st h email password role).2.2 =
      foldRecord (test_user_login st h email password role).1.apis h := by
  obtain ⟨sc, clk, a1, a2, a3, a4, a5, a6, a7, a8, a9⟩ := st
  dsimp only [test_user_login, make_request, log_api_call]
  repeat' split
  all_goals rfl

set_option maxHeartbeats 2000000 in
theorem health_step_create_payment_intent (st : EngineState) (h : Health) :
    (test_create_payment_intent st h).2.2 =
      foldRecord
        (flowsApis (paymentDiscarded st h) ++ (test_create_payment_intent st h).1.apis)
        h := by
  obtain ⟨sc, clk, a1, a2, a3, a4, a5, a6, a7, a8, a9⟩ := st
  dsimp only [test_create_payment_intent, paymentDiscarded, make_request, log_api_call]
  by_cases hct : optTruthy a1 = true
  · by_cases haddr : optTruthy a5 = true
    · have hguard : (!optTruthy a1 || !optTruthy a5) = false := by
        simp [hct, haddr]
      rw [hguard]
      by_cases hcart : optTruthy a9 = true
      · -- no repair: the discarded list is empty
        have hpd : (optTruthy a1 && optTruthy a5 && !optTruthy a9) = false := by
          simp [hcart]
        rw [hpd]
        simp only [hcart, Bool.not_true, if_false, Bool.false_eq_true, ite_false,
          flowsApis, List.map_nil, List.flatten_nil, List.nil_append]
        cases sc with
        | nil => rfl
        | cons r rest =>
            cases r with
            | exn m => rfl
            | ok status body text lat =>
                dsimp only
                repeat' split
                all_goals rfl
      · -- inline repair: the inner add-to-cart flow is the discarded one
        have hpd : (optTruthy a1 && optTruthy a5 && !optTruthy a9) = true := by
          simp [hct, haddr, hcart]
        rw [hpd]
        have hadd := health_step_add_to_cart
          ⟨sc, clk, a1, a2, a3, a4, a5, a6, a7, a8, a9⟩ h
        rcases hA : test_add_to_cart ⟨sc, clk, a1, a2, a3, a4, a5, a6, a7, a8, a9⟩ h
          with ⟨addFlow, sta, ha⟩
        rw [hA] at hadd
        simp only [hA]
        simp only at hadd
        simp only [hcart, Bool.not_false, if_true, flowsApis, List.map_cons,
          List.map_nil, List.flatten_cons, List.flatten_nil, List.append_nil]
        by_cases hres : addFlow.result = TestResult.PASS
        · simp only [hres, decide_eq_true_eq, decide_True, Bool.not_true,
            Bool.false_eq_true, if_false]
          cases hsc : sta.script with
          | nil =>
              dsimp only
              rw [foldRecord_append, ← hadd]
              rfl
          | cons r2 rest2 =>
              cases r2 with
              | exn m2 =>
                  dsimp only
                  rw [foldRecord_append, ← hadd]
                  rfl
              | ok s2 b2 t2 l2 =>
                  dsimp only
                  repeat' split
                  all_goals
                    rw [foldRecord_append, ← hadd]
                    rfl
        · have hres' : decide (addFlow.result = TestResult.PASS) = false := by
            simp [hres]
          simp [hres', setSkip, mkFlow, hadd]
    · have hguard : (!optTruthy a1 || !optTruthy a5) = true := by
        simp [haddr]
      have hpd : (optTruthy a1 && optTruthy a5 && !optTruthy a9) = false := by
        simp [haddr]
      rw [hguard, hpd]
      rfl
  · have hguard : (!optTruthy a1 || !optTruthy a5) = true := by
      simp [hct]
    have hpd : (optTruthy a1 && optTruthy a5 && !optTruthy a9) = false := by
      simp [hct]
    rw [hguard, hpd]
    rfl

theorem flowsCount_cons (f : TestFlow) (fs : List TestFlow) (s : String) :
    flowsCount (f :: fs) s = countService f.apis s + flowsCount fs s := by
  simp [flowsCount]

theorem flowsCount_nil (s : String) : flowsCount [] s = 0 := rfl

theorem countService_append (a b : List APICall) (s : String) :
    countService (a ++ b) s = countService a s + countService b s := by
  simp [countService, List.countP_append]


theorem flowsCount_append (a b : List TestFlow) (s : String) :
    flowsCount (a ++ b) s = flowsCount a s + flowsCount b s := by
  simp [flowsCount]

theorem recordStep_inv (s : String)
    (step : EngineState → Health → TestFlow × EngineState × Health)
    (hstep : ∀ st h, (step st h).2.2 = foldRecord (step st h).1.apis h)
    (acc : RunAcc) (hinv : healthInv s acc) :
    healthInv s (recordStep step acc) := by
  obtain ⟨fs, ds, st, h⟩ := acc
  have hx := hstep st h
  rcases e : step st h with ⟨f, st2, h2⟩
  rw [e] at hx
  simp only at hx
  simp only [healthInv] at hinv
  simp only [healthInv, recordStep, e]
  rw [hx, healthTotal_foldRecord, flowsCount_append, flowsCount_cons, flowsCount_nil]
  omega

theorem sideStep_inv (s : String)
    (step : EngineState → Health → TestFlow × EngineState × Health)
    (hstep : ∀ st h, (step st h).2.2 = foldRecord (step st h).1.apis h)
    (acc : RunAcc) (hinv : healthInv s acc) :
    healthInv s (sideStep step acc) := by
  obtain ⟨fs, ds, st, h⟩ := acc
  have hx := hstep st h
  rcases e : step st h with ⟨f, st2, h2⟩
  rw [e] at hx
  simp only at hx
  simp only [healthInv] at hinv
  simp only [healthInv, sideStep, e]
  rw [hx, healthTotal_foldRecord, flowsCount_append, flowsCount_cons, flowsCount_nil]
  omega

theorem recordStepWith_inv (s : String)
    (step : EngineState → Health → TestFlow × EngineState × Health)
    (discardOf : EngineState → Health → List TestFlow)
    (hstep : ∀ st h, (step st h).2.2 =
      foldRecord (flowsApis (discardOf st h) ++ (step st h).1.apis) h)
    (acc : RunAcc) (hinv : healthInv s acc) :
    healthInv s (recordStepWith step discardOf acc) := by
  obtain ⟨fs, ds, st, h⟩ := acc
  have hx := hstep st h
  have hpd := flowsCount_eq_countService (discardOf st h) s
  rcases e : step st h with ⟨f, st2, h2⟩
  rw [e] at hx
  simp only at hx
  simp only [healthInv] at hinv
  simp only [healthInv, recordStepWith, e]
  rw [hx, healthTotal_foldRecord, countService_append, flowsCount_append,
    flowsCount_append, flowsCount_cons, flowsCount_nil]
  omega

theorem runAllAux_health (script : List NetResult) (clock : Int) (s : String) :
    healthInv s (runAllAux (initState script clock)) := by
  unfold runAllAux
  refine recordStep_inv s _ health_step_cross_service_cart_order_flow _ ?_
  refine recordStep_inv s _ health_step_get_product_reviews _ ?_
  refine recordStep_inv s _ health_step_get_nearby_stores _ ?_
  refine recordStep_inv s _ health_step_get_stores _ ?_
  refine recordStep_inv s _ health_step_notification_service _ ?_
  refine recordStep_inv s _ health_step_reserve_inventory _ ?_
  refine recordStep_inv s _ health_step_get_inventory _ ?_
  refine recordStep_inv s _ health_step_admin_get_all_orders _ ?_
  refine recordStep_inv s _ health_step_admin_update_order_status _ ?_
  refine recordStep_inv s _ health_step_admin_create_category _ ?_
  refine recordStep_inv s _ health_step_get_order_detail _ ?_
  refine recordStep_inv s _ health_step_get_orders _ ?_
  refine recordStepWith_inv s _ _ health_step_create_payment_intent _ ?_
  refine sideStep_inv s _ health_step_add_to_cart _ ?_
  refine recordStep_inv s _ health_step_remove_from_cart _ ?_
  refine recordStep_inv s _ health_step_update_cart_item _ ?_
  refine recordStep_inv s _ health_step_add_to_cart _ ?_
  refine recordStep_inv s _ health_step_get_cart _ ?_
  refine recordStep_inv s _ health_step_get_addresses _ ?_
  refine recordStep_inv s _ health_step_create_address _ ?_
  refine recordStep_inv s _ health_step_get_product_detail _ ?_
  refine recordStep_inv s _ health_step_search_products _ ?_
  refine recordStep_inv s _ health_step_get_products _ ?_
  refine recordStep_inv s _ health_step_get_categories _ ?_
  refine recordStep_inv s _ health_step_jwt_expiration_handling _ ?_
  refine recordStep_inv s _ health_step_get_current_user _ ?_
  refine recordStep_inv s _
    (fun st h => health_step_user_login st h ADMIN_EMAIL ADMIN_PASSWORD "admin") _ ?_
  refine recordStep_inv s _
    (fun st h => health_step_user_login st h CUSTOMER_EMAIL CUSTOMER_PASSWORD "customer") _ ?_
  refine recordStep_inv s _ health_step_user_registration _ ?_
  simp [healthInv, healthTotal, flowsCount, freshHealth]

/-- C3 (amended): at the end of every run, each service's health-table
total equals the calls tagged with that service across the recorded
flows plus those across the flows produced but not recorded (the
deliberate cart re-population and the payment step's inline repair). -/
theorem c3_health_totals_amended (script : List NetResult) (clock : Int) (s : String) :
    healthTotal (run_all_tests (initState script clock)).2.2 s =
      flowsCount (run_all_tests (initState script clock)).1 s +
        flowsCount (runAllAux (initState script clock)).2.1 s := by
  have hx := runAllAux_health script clock s
  simp only [healthInv] at hx
  unfold run_all_tests
  rcases er : runAllAux (initState script clock) with ⟨fs, ds, stF, hF⟩
  rw [er] at hx
  simpa using hx

set_option maxHeartbeats 0 in
/-- C3 counterexample: a concrete full run in which the unrecorded cart
re-population logs a call to service A, so the health total for A is
strictly larger than the number of calls in the recorded flow list. -/
theorem c3_counterexample :
    healthTotal (run_all_tests (initState c3Script 0)).2.2 "A" ≠
      flowsCount (run_all_tests (initState c3Script 0)).1 "A" := by
  decide

theorem countP_replicate (p : TestFlow → Bool) (n : Nat) (a : TestFlow) :
    (List.replicate n a).countP p = if p a then n else 0 := by
  induction n with
  | zero => simp
  | succ k ih =>
      rw [List.replicate_succ, List.countP_cons]
      by_cases hp : p a <;> simp [hp, ih] <;> omega

/-- C1: the summary's success-rate string always agrees with the
spec-side definition (the string 0% when the total is zero, otherwise
passed/total as a one-decimal percentage); and for every pair of counts
passed less-or-equal total there is a flow list realizing them on which
the summary reports exactly those counts and that rate.  Totality of
get_summary covers the never-fails part of the claim. -/
theorem c1_success_rate (passed total : Nat) (hle : passed ≤ total) :
    (∀ flows : List TestFlow,
       (get_summary flows).success_rate =
         specSuccessRate (get_summary flows).passed (get_summary flows).total) ∧
    (get_summary (List.replicate passed (onlyResult TestResult.PASS) ++
        List.replicate (total - passed) (onlyResult TestResult.FAIL))).total = total ∧
    (get_summary (List.replicate passed (onlyResult TestResult.PASS) ++
        List.replicate (total - passed) (onlyResult TestResult.FAIL))).passed = passed ∧
    (get_summary (List.replicate passed (onlyResult TestResult.PASS) ++
        List.replicate (total - passed) (onlyResult TestResult.FAIL))).success_rate =
      specSuccessRate passed total := by
  have hcount :
      (get_summary (List.replicate passed (onlyResult TestResult.PASS) ++
          List.replicate (total - passed) (onlyResult TestResult.FAIL))).passed = passed := by
    simp [get_summary, List.countP_append, countP_replicate, onlyResult]
  have htotal :
      (get_summary (List.replicate passed (onlyResult TestResult.PASS) ++
          List.replicate (total - passed) (onlyResult TestResult.FAIL))).total = total := by
    simp [get_summary]
    omega
  have hrate : ∀ flows : List TestFlow,
      (get_summary flows).success_rate =
        specSuccessRate (get_summary flows).passed (get_summary flows).total := by
    intro flows
    simp only [get_summary, specSuccessRate]
    rcases flows with _ | ⟨f, fs⟩ <;> simp
  refine ⟨hrate, htotal, hcount, ?_⟩
  rw [hrate, hcount, htotal]

/-- C1 witness: one pass out of three flows formats as the spec-side
rate. -/
theorem c1_success_rate_witness :
    (get_summary (List.replicate 1 (onlyResult TestResult.PASS) ++
        List.replicate 2 (onlyResult TestResult.FAIL))).success_rate =
      specSuccessRate 1 3 :=
  (c1_success_rate 1 3 (by decide)).2.2.2

/-- C9: recording the same calls in any permuted order produces the same
per-service total, success and failure counts. -/
theorem c9_health_order_independent (l1 l2 : List APICall) (h : Health)
    (s : String) (hperm : l1.Perm l2) :
    healthTotal (foldRecord l1 h) s = healthTotal (foldRecord l2 h) s ∧
    healthSuccess (foldRecord l1 h) s = healthSuccess (foldRecord l2 h) s ∧
    healthFailures (foldRecord l1 h) s = healthFailures (foldRecord l2 h) s := by
  refine ⟨?_, ?_, ?_⟩
  · rw [healthTotal_foldRecord, healthTotal_foldRecord, countService,
      countService, hperm.countP_eq]
  · rw [healthSuccess_foldRecord, healthSuccess_foldRecord, countSuccessCalls,
      countSuccessCalls, hperm.countP_eq]
  · rw [healthFailures_foldRecord, healthFailures_foldRecord, countFailureCalls,
      countFailureCalls, hperm.countP_eq]


/-- C9 witness: swapping two calls leaves the counters unchanged. -/
theorem c9_health_order_independent_witness :
    healthTotal (foldRecord [callOkA, callErrA] []) "A" =
      healthTotal (foldRecord [callErrA, callOkA] []) "A" ∧
    healthSuccess (foldRecord [callOkA, callErrA] []) "A" =
      healthSuccess (foldRecord [callErrA, callOkA] []) "A" ∧
    healthFailures (foldRecord [callOkA, callErrA] []) "A" =
      healthFailures (foldRecord [callErrA, callOkA] []) "A" :=
  c9_health_order_independent [callOkA, callErrA] [callErrA, callOkA] [] "A"
    (List.Perm.swap callErrA callOkA [])

/-- C10: every health entry satisfies total equals success plus failures:
the property is preserved by each record operation, holds for the table
built from any call list, and a call with no captured status is counted
as a failure. -/
theorem c10_total_split :
    (∀ (h : Health) (c : APICall),
       (∀ s e, List.lookup s h = some e → e.total = e.success + e.failures) →
       ∀ s e, List.lookup s (recordCall c h) = some e →
         e.total = e.success + e.failures) ∧
    (∀ (calls : List APICall) (s : String) (e : ServiceHealth),
       List.lookup s (foldRecord calls []) = some e →
         e.total = e.success + e.failures) ∧
    (∀ (h : Health) (c : APICall) (s : String), c.service = some s →
       c.response_code = none →
       healthFailures (recordCall c h) s = healthFailures h s + 1) := by
  have hstep : ∀ (h : Health) (c : APICall),
      (∀ s e, List.lookup s h = some e → e.total = e.success + e.failures) →
      ∀ s e, List.lookup s (recordCall c h) = some e →
        e.total = e.success + e.failures := by
    intro h c hinv s e hlook
    unfold recordCall at hlook
    cases hc : c.service with
    | none =>
        rw [hc] at hlook
        exact hinv s e hlook
    | some t =>
        rw [hc, lookup_setAssoc] at hlook
        by_cases hs : s = t
        · rw [if_pos hs] at hlook
          have hbase : ((List.lookup t h).getD freshHealth).total =
              ((List.lookup t h).getD freshHealth).success +
                ((List.lookup t h).getD freshHealth).failures := by
            cases hl : List.lookup t h with
            | none => simp [freshHealth]
            | some e0 => simpa using hinv t e0 hl
          have he : e = bumpService c ((List.lookup t h).getD freshHealth) :=
            (Option.some.inj hlook).symm
          subst he
          rw [bumpService_total, bumpService_success, bumpService_failures]
          by_cases hok : codeSuccess c.response_code = true <;> simp [hok] <;> omega
        · rw [if_neg hs] at hlook
          exact hinv s e hlook
  refine ⟨hstep, ?_, ?_⟩
  · have hfold : ∀ (calls : List APICall) (h : Health),
        (∀ s e, List.lookup s h = some e → e.total = e.success + e.failures) →
        ∀ s e, List.lookup s (foldRecord calls h) = some e →
          e.total = e.success + e.failures := by
      intro calls
      induction calls with
      | nil => intro h hinv s e hl; exact hinv s e hl
      | cons c rest ih =>
          intro h hinv s e hl
          have : foldRecord (c :: rest) h = foldRecord rest (recordCall c h) := rfl
          rw [this] at hl
          exact ih (recordCall c h) (hstep h c hinv) s e hl
    intro calls s e hl
    refine hfold calls [] ?_ s e hl
    intro s0 e0 hl0
    simp at hl0
  · intro h c s hserv hcode
    have hcs : codeSuccess c.response_code = false := by
      rw [hcode]
      rfl
    rw [healthFailures_recordCall]
    simp [hserv, hcs]

/-- C10 witness: after recording one failed call from empty, the A entry
splits as total equals success plus failures. -/
theorem c10_total_split_witness :
    (bumpService callErrA freshHealth).total =
      (bumpService callErrA freshHealth).success +
        (bumpService callErrA freshHealth).failures :=
  c10_total_split.2.1 [callErrA] "A" (bumpService callErrA freshHealth) rfl

/-- C7: with the malformed token, the negative-auth step is PASS exactly
when the completed status is 401, and any other completed status gives
WARNING. -/
theorem c7_invalid_token (st : EngineState) (h : Health) (status : Nat)
    (body : Except String Json) (text : String) (lat : Rat)
    (rest : List NetResult)
    (hs : st.script = NetResult.ok status body text lat :: rest) :
    ((test_jwt_expiration_handling st h).1.result = TestResult.PASS ↔ status = 401) ∧
    (status ≠ 401 →
      (test_jwt_expiration_handling st h).1.result = TestResult.WARNING) := by
  obtain ⟨sc, clk, a1, a2, a3, a4, a5, a6, a7, a8, a9⟩ := st
  simp only at hs
  subst hs
  by_cases h401 : status = 401
  · simp [test_jwt_expiration_handling, make_request, log_api_call, h401,
      setPass, setWarn, mkFlow]
  · simp [test_jwt_expiration_handling, make_request, log_api_call, h401,
      setPass, setWarn, mkFlow]

/-- C7 witness: a 401 response makes the step PASS; a 403 gives
WARNING. -/
theorem c7_invalid_token_witness :
    (((test_jwt_expiration_handling
        (initState [NetResult.ok 401 (Except.ok (Json.obj [])) "" 1] 0) []).1.result =
          TestResult.PASS ↔ (401 : Nat) = 401) ∧
      ((401 : Nat) ≠ 401 →
        (test_jwt_expiration_handling
          (initState [NetResult.ok 401 (Except.ok (Json.obj [])) "" 1] 0) []).1.result =
            TestResult.WARNING)) ∧
    ((403 : Nat) ≠ 401 →
      (test_jwt_expiration_handling
        (initState [NetResult.ok 403 (Except.ok (Json.obj [])) "" 1] 0) []).1.result =
          TestResult.WARNING) :=
  ⟨c7_invalid_token _ [] 401 (Except.ok (Json.obj [])) "" 1 [] rfl,
   (c7_invalid_token _ [] 403 (Except.ok (Json.obj [])) "" 1 [] rfl).2⟩

/-- C8 (amended): with a product id present and a 200 product-detail
response, an object body containing the keys id and name gives PASS; a
list body gives WARNING unless the list contains both the strings id and
name as elements, in which case the membership test succeeds and the
step gives PASS. -/
theorem c8_product_detail (st : EngineState) (h : Health) (text : String)
    (lat : Rat) (rest : List NetResult)
    (hpid : optTruthy st.test_product_id = true) :
    (∀ kvs : List (String × Json),
       st.script = NetResult.ok 200 (Except.ok (Json.obj kvs)) text lat :: rest →
       (List.lookup "id" kvs).isSome = true →
       (List.lookup "name" kvs).isSome = true →
       (test_get_product_detail st h).1.result = TestResult.PASS) ∧
    (∀ xs : List Json,
       st.script = NetResult.ok 200 (Except.ok (Json.arr xs)) text lat :: rest →
       (test_get_product_detail st h).1.result =
         (if xs.any (pyElemStr "id") && xs.any (pyElemStr "name") then TestResult.PASS
          else TestResult.WARNING)) := by
  obtain ⟨sc, clk, a1, a2, a3, a4, a5, a6, a7, a8, a9⟩ := st
  simp only at hpid
  constructor
  · intro kvs hs hid hname
    simp only at hs
    subst hs
    simp [test_get_product_detail, make_request, log_api_call, hpid, pyContains,
      hid, hname, setPass, mkFlow]
  · intro xs hs
    simp only at hs
    subst hs
    by_cases hid : xs.any (pyElemStr "id") = true
    · by_cases hname : xs.any (pyElemStr "name") = true
      · simp [test_get_product_detail, make_request, log_api_call, hpid,
          pyContains, hid, hname, setPass, setWarnK, mkFlow]
      · simp [test_get_product_detail, make_request, log_api_call, hpid,
          pyContains, hid, hname, setPass, setWarnK, mkFlow]
    · simp [test_get_product_detail, make_request, log_api_call, hpid,
        pyContains, hid, setPass, setWarnK, mkFlow]


/-- C8 counterexample: on a 200 response whose body is the list
containing the strings id and name, the step yields PASS, not the
WARNING the claim requires for every list body. -/
theorem c8_counterexample :
    (test_get_product_detail c8State []).1.result = TestResult.PASS ∧
    (test_get_product_detail c8State []).1.result ≠ TestResult.WARNING := by
  decide

/-- C8 witness: an object body with id and name gives PASS, and a list
body without those strings gives WARNING. -/
theorem c8_product_detail_witness :
    (test_get_product_detail
      { initState [NetResult.ok 200
          (Except.ok (Json.obj [("id", Json.num 7), ("name", Json.str "p")])) "" 1] 0
        with test_product_id := some (Json.num 7) } []).1.result = TestResult.PASS ∧
    (test_get_product_detail
      { initState [NetResult.ok 200 (Except.ok (Json.arr [Json.num 1])) "" 1] 0
        with test_product_id := some (Json.num 7) } []).1.result = TestResult.WARNING := by
  constructor
  · exact (c8_product_detail
      { initState [NetResult.ok 200
          (Except.ok (Json.obj [("id", Json.num 7), ("name", Json.str "p")])) "" 1] 0
        with test_product_id := some (Json.num 7) } [] "" 1 [] rfl).1
      [("id", Json.num 7), ("name", Json.str "p")] rfl rfl rfl
  · have hx := (c8_product_detail
      { initState [NetResult.ok 200 (Except.ok (Json.arr [Json.num 1])) "" 1] 0
        with test_product_id := some (Json.num 7) } [] "" 1 [] rfl).2 [Json.num 1] rfl
    simpa using hx

/-- C2: on a 200 login response whose object body holds a truthy access
token and a nonempty user object, the step stores the token and the
user's id into the customer or admin session fields per the role
argument and yields PASS; if either key is absent the step yields FAIL
(not WARNING). -/
theorem c2_login (st : EngineState) (h : Health) (email password role : String)
    (kvs : List (String × Json)) (text : String) (lat : Rat)
    (rest : List NetResult)
    (hs : st.script = NetResult.ok 200 (Except.ok (Json.obj kvs)) text lat :: rest) :
    (∀ (tok : Json) (ukvs : List (String × Json)),
       List.lookup "access_token" kvs = some tok → tok.truthy = true →
       List.lookup "user" kvs = some (Json.obj ukvs) → ukvs ≠ [] →
       (test_user_login st h email password role).1.result = TestResult.PASS ∧
       (if role = "customer" then
          (test_user_login st h email password role).2.1.customer_token = some tok ∧
          (test_user_login st h email password role).2.1.customer_user_id =
            some ((List.lookup "id" ukvs).getD Json.null)
        else
          (test_user_login st h email password role).2.1.admin_token = some tok ∧
          (test_user_login st h email password role).2.1.admin_user_id =
            some ((List.lookup "id" ukvs).getD Json.null))) ∧
    ((List.lookup "access_token" kvs = none ∨ List.lookup "user" kvs = none) →
       (test_user_login st h email password role).1.result = TestResult.FAIL) := by
  obtain ⟨sc, clk, a1, a2, a3, a4, a5, a6, a7, a8, a9⟩ := st
  simp only at hs
  subst hs
  constructor
  · intro tok ukvs htok htru huser hne
    have hutru : (Json.obj ukvs).truthy = true := by
      simp [Json.truthy, hne]
    by_cases hrole : role = "customer"
    · subst hrole
      simp [test_user_login, make_request, log_api_call, htok, huser, htru,
        hutru, setPass, mkFlow]
    · have hrb : (role == "customer") = false := beq_eq_false_iff_ne.mpr hrole
      simp [test_user_login, make_request, log_api_call, htok, huser, htru,
        hutru, hrb, hrole, setPass, mkFlow]
  · intro hmiss
    rcases hmiss with hm | hm
    · simp [test_user_login, make_request, log_api_call, hm, Json.truthy,
        setFail, mkFlow]
    · simp [test_user_login, make_request, log_api_call, hm, Json.truthy,
        setFail, mkFlow]

/-- C2 witness: a complete login body stores the customer token and user
id and passes; a body with the token but no user fails. -/
theorem c2_login_witness :
    ((test_user_login
        (initState [NetResult.ok 200 (Except.ok (Json.obj
          [("access_token", Json.str "t"), ("user", Json.obj [("id", Json.num 1)])])) "" 1] 0)
        [] CUSTOMER_EMAIL CUSTOMER_PASSWORD "customer").1.result = TestResult.PASS ∧
      (test_user_login
        (initState [NetResult.ok 200 (Except.ok (Json.obj
          [("access_token", Json.str "t"), ("user", Json.obj [("id", Json.num 1)])])) "" 1] 0)
        [] CUSTOMER_EMAIL CUSTOMER_PASSWORD "customer").2.1.customer_token =
          some (Json.str "t") ∧
      (test_user_login
        (initState [NetResult.ok 200 (Except.ok (Json.obj
          [("access_token", Json.str "t"), ("user", Json.obj [("id", Json.num 1)])])) "" 1] 0)
        [] CUSTOMER_EMAIL CUSTOMER_PASSWORD "customer").2.1.customer_user_id =
          some (Json.num 1)) ∧
    (test_user_login
        (initState [NetResult.ok 200 (Except.ok (Json.obj
          [("access_token", Json.str "t")])) "" 1] 0)
        [] CUSTOMER_EMAIL CUSTOMER_PASSWORD "customer").1.result = TestResult.FAIL := by
  constructor
  · have hx := (c2_login
        (initState [NetResult.ok 200 (Except.ok (Json.obj
          [("access_token", Json.str "t"), ("user", Json.obj [("id", Json.num 1)])])) "" 1] 0)
        [] CUSTOMER_EMAIL CUSTOMER_PASSWORD "customer"
        [("access_token", Json.str "t"), ("user", Json.obj [("id", Json.num 1)])]
        "" 1 [] rfl).1 (Json.str "t") [("id", Json.num 1)] rfl rfl rfl (by simp)
    refine ⟨hx.1, ?_, ?_⟩
    · have := hx.2
      simp at this
      exact this.1
    · have := hx.2
      simp at this
      exact this.2
  · exact (c2_login
        (initState [NetResult.ok 200 (Except.ok (Json.obj
          [("access_token", Json.str "t")])) "" 1] 0)
        [] CUSTOMER_EMAIL CUSTOMER_PASSWORD "customer"
        [("access_token", Json.str "t")] "" 1 [] rfl).2 (Or.inr rfl)

/-- C6 (amended): for the composite cross-service step, the three
sub-calls are issued in the fixed order product fetch (B), cart-add (A),
payment-intent (A); the step is PASS only if all three complete
successfully in order (a non-200 product fetch or non-201 cart-add is
FAIL and short-circuits the remaining sub-calls, a non-200 payment call
is FAIL); and the step writes no Session-State field: the engine state
is unchanged except for the consumed script. -/
theorem c6_cross_service (st : EngineState) (h : Health)
    (hct : optTruthy st.customer_token = true)
    (haddr : optTruthy st.test_address_id = true) :
    (∀ (s1 : Nat) (b1 : Except String Json) (t1 : String) (l1 : Rat)
       (rest : List NetResult),
       st.script = NetResult.ok s1 b1 t1 l1 :: rest → s1 ≠ 200 →
       (test_cross_service_cart_order_flow st h).1.result = TestResult.FAIL ∧
       (test_cross_service_cart_order_flow st h).2.1 = { st with script := rest }) ∧
    (∀ (pk vk : List (String × Json)) (vs : List Json) (t1 : String) (l1 : Rat)
       (s2 : Nat) (b2 : Except String Json) (t2 : String) (l2 : Rat)
       (rest : List NetResult),
       st.script = NetResult.ok 200 (Except.ok (Json.obj pk)) t1 l1 ::
         NetResult.ok s2 b2 t2 l2 :: rest →
       List.lookup "variants" pk = some (Json.arr (Json.obj vk :: vs)) →
       s2 ≠ 201 →
       (test_cross_service_cart_order_flow st h).1.result = TestResult.FAIL ∧
       (test_cross_service_cart_order_flow st h).2.1 = { st with script := rest }) ∧
    (∀ (pk vk : List (String × Json)) (vs : List Json) (t1 : String) (l1 : Rat)
       (b2 : Except String Json) (t2 : String) (l2 : Rat)
       (odata : Json) (t3 : String) (l3 : Rat) (rest : List NetResult),
       st.script = NetResult.ok 200 (Except.ok (Json.obj pk)) t1 l1 ::
         NetResult.ok 201 b2 t2 l2 ::
         NetResult.ok 200 (Except.ok odata) t3 l3 :: rest →
       List.lookup "variants" pk = some (Json.arr (Json.obj vk :: vs)) →
       pyContains "order_id" odata = Except.ok true →
       (test_cross_service_cart_order_flow st h).1.result = TestResult.PASS ∧
       ((test_cross_service_cart_order_flow st h).1.apis.map
          (fun c => (c.method, c.service))) =
         [("GET", some "B"), ("POST", some "A"), ("POST", some "A")] ∧
       (test_cross_service_cart_order_flow st h).2.1 = { st with script := rest }) ∧
    (∀ (pk vk : List (String × Json)) (vs : List Json) (t1 : String) (l1 : Rat)
       (b2 : Except String Json) (t2 : String) (l2 : Rat)
       (s3 : Nat) (b3 : Except String Json) (t3 : String) (l3 : Rat)
       (rest : List NetResult),
       st.script = NetResult.ok 200 (Except.ok (Json.obj pk)) t1 l1 ::
         NetResult.ok 201 b2 t2 l2 :: NetResult.ok s3 b3 t3 l3 :: rest →
       List.lookup "variants" pk = some (Json.arr (Json.obj vk :: vs)) →
       s3 ≠ 200 →
       (test_cross_service_cart_order_flow st h).1.result = TestResult.FAIL) := by
  obtain ⟨sc, clk, a1, a2, a3, a4, a5, a6, a7, a8, a9⟩ := st
  simp only at hct haddr
  refine ⟨?_, ?_, ?_, ?_⟩
  · intro s1 b1 t1 l1 rest hs hne
    simp only at hs
    subst hs
    simp [test_cross_service_cart_order_flow, make_request, log_api_call,
      hct, haddr, hne, setFail, mkFlow]
  · intro pk vk vs t1 l1 s2 b2 t2 l2 rest hs hvar hne
    simp only at hs
    subst hs
    simp [test_cross_service_cart_order_flow, make_request, log_api_call,
      hct, haddr, hvar, hne, Json.truthy, setFail, mkFlow]
  · intro pk vk vs t1 l1 b2 t2 l2 odata t3 l3 rest hs hvar hord
    simp only at hs
    subst hs
    simp [test_cross_service_cart_order_flow, make_request, log_api_call,
      hct, haddr, hvar, hord, Json.truthy, setPass, mkFlow]
  · intro pk vk vs t1 l1 b2 t2 l2 s3 b3 t3 l3 rest hs hvar hne
    simp only at hs
    subst hs
    simp [test_cross_service_cart_order_flow, make_request, log_api_call,
      hct, haddr, hvar, hne, Json.truthy, setFail, mkFlow]


/-- C6 counterexample: a fully successful composite run yields PASS yet
stores neither the order id nor the cart-item id into Session State, so
the step does not populate the fields the claim says it populates. -/
theorem c6_counterexample :
    (test_cross_service_cart_order_flow c6State []).1.result = TestResult.PASS ∧
    (test_cross_service_cart_order_flow c6State []).2.1.test_order_id = none ∧
    (test_cross_service_cart_order_flow c6State []).2.1.test_cart_item_id = none := by
  refine ⟨?_, ?_, ?_⟩ <;> rfl

/-- C6 witness: on the concrete successful script the composite step
passes with the three sub-calls in the fixed order. -/
theorem c6_cross_service_witness :
    (test_cross_service_cart_order_flow c6State []).1.result = TestResult.PASS ∧
    ((test_cross_service_cart_order_flow c6State []).1.apis.map
       (fun c => (c.method, c.service))) =
      [("GET", some "B"), ("POST", some "A"), ("POST", some "A")] := by
  have hx := (c6_cross_service c6State [] rfl rfl).2.2.1 productBody
    [("id", Json.num 11), ("sku", Json.str "S"), ("price", Json.num 10)] []
    "" 1 (Except.ok (Json.obj [])) "" 1 (Json.obj [("order_id", Json.num 31)]) "" 1 []
    rfl rfl rfl
  exact ⟨hx.1, hx.2.1⟩

/-- C5: every step whose required Session-State precondition is absent
at entry returns SKIPPED immediately, with no API call logged and the
engine state and health table untouched (in particular the network
script is not consumed: zero HTTP calls are issued). -/
theorem c5_missing_precondition_skips :
    (∀ (st : EngineState) (h : Health), optTruthy st.customer_token = false →
       test_get_current_user st h =
         (setSkip (mkFlow "Get Current User" "A") "No auth token", st, h)) ∧
    (∀ (st : EngineState) (h : Health), optTruthy st.test_product_id = false →
       test_get_product_detail st h =
         (setSkip (mkFlow "Get Product Detail" "B") "No product ID available", st, h)) ∧
    (∀ (st : EngineState) (h : Health), optTruthy st.customer_token = false →
       test_create_address st h = (setSkipK (mkFlow "Create Address" "A"), st, h)) ∧
    (∀ (st : EngineState) (h : Health), optTruthy st.customer_token = false →
       test_get_addresses st h = (setSkipK (mkFlow "Get Addresses" "A"), st, h)) ∧
    (∀ (st : EngineState) (h : Health), optTruthy st.customer_token = false →
       test_get_cart st h = (setSkipK (mkFlow "Get Cart" "A"), st, h)) ∧
    (∀ (st : EngineState) (h : Health),
       optTruthy st.customer_token = false ∨ optTruthy st.test_product_id = false →
       test_add_to_cart st h =
         (setSkip (mkFlow "Add to Cart" "A") "Missing token or product ID", st, h)) ∧
    (∀ (st : EngineState) (h : Health),
       optTruthy st.customer_token = false ∨ optTruthy st.test_cart_item_id = false →
       test_update_cart_item st h = (setSkipK (mkFlow "Update Cart Item" "A"), st, h)) ∧
    (∀ (st : EngineState) (h : Health),
       optTruthy st.customer_token = false ∨ optTruthy st.test_cart_item_id = false →
       test_remove_from_cart st h = (setSkipK (mkFlow "Remove from Cart" "A"), st, h)) ∧
    (∀ (st : EngineState) (h : Health),
       optTruthy st.customer_token = false ∨ optTruthy st.test_address_id = false →
       test_create_payment_intent st h =
         (setSkip (mkFlow "Create Payment Intent" "A") "Missing token or address", st, h)) ∧
    (∀ (st : EngineState) (h : Health), optTruthy st.customer_token = false →
       test_get_orders st h = (setSkipK (mkFlow "Get Orders" "A"), st, h)) ∧
    (∀ (st : EngineState) (h : Health),
       optTruthy st.customer_token = false ∨ optTruthy st.test_order_id = false →
       test_get_order_detail st h = (setSkipK (mkFlow "Get Order Detail" "A"), st, h)) ∧
    (∀ (st : EngineState) (h : Health), optTruthy st.admin_token = false →
       test_admin_create_category st h =
         (setSkipK (mkFlow "Admin Create Category" "B"), st, h)) ∧
    (∀ (st : EngineState) (h : Health),
       optTruthy st.admin_token = false ∨ optTruthy st.test_order_id = false →
       test_admin_update_order_status st h =
         (setSkip (mkFlow "Admin Update Order Status" "A")
           "Missing admin token or order ID", st, h)) ∧
    (∀ (st : EngineState) (h : Health), optTruthy st.admin_token = false →
       test_admin_get_all_orders st h =
         (setSkipK (mkFlow "Admin Get All Orders" "A"), st, h)) ∧
    (∀ (st : EngineState) (h : Health), optTruthy st.test_product_id = false →
       test_get_inventory st h =
         (setSkip (mkFlow "Get Inventory" "B") "No product ID available", st, h)) ∧
    (∀ (st : EngineState) (h : Health), optTruthy st.test_product_id = false →
       test_reserve_inventory st h = (setSkipK (mkFlow "Reserve Inventory" "B"), st, h)) ∧
    (∀ (st : EngineState) (h : Health), optTruthy st.test_product_id = false →
       test_get_product_reviews st h =
         (setSkipK (mkFlow "Get Product Reviews" "B"), st, h)) ∧
    (∀ (st : EngineState) (h : Health),
       optTruthy st.customer_token = false ∨ optTruthy st.test_address_id = false →
       test_cross_service_cart_order_flow st h =
         (setSkipK (mkFlow "Cross-Service: Product - Cart - Order" "A+B"), st, h)) := by
  refine ⟨?_, ?_, ?_, ?_, ?_, ?_, ?_, ?_, ?_, ?_, ?_, ?_, ?_, ?_, ?_, ?_, ?_, ?_⟩
  · intro st h hg
    simp [test_get_current_user, hg]
  · intro st h hg
    simp [test_get_product_detail, hg]
  · intro st h hg
    simp [test_create_address, hg]
  · intro st h hg
    simp [test_get_addresses, hg]
  · intro st h hg
    simp [test_get_cart, hg]
  · intro st h hg
    rcases hg with hg | hg <;> simp [test_add_to_cart, hg]
  · intro st h hg
    rcases hg with hg | hg <;> simp [test_update_cart_item, hg]
  · intro st h hg
    rcases hg with hg | hg <;> simp [test_remove_from_cart, hg]
  · intro st h hg
    rcases hg with hg | hg <;> simp [test_create_payment_intent, hg]
  · intro st h hg
    simp [test_get_orders, hg]
  · intro st h hg
    rcases hg with hg | hg <;> simp [test_get_order_detail, hg]
  · intro st h hg
    simp [test_admin_create_category, hg]
  · intro st h hg
    rcases hg with hg | hg <;> simp [test_admin_update_order_status, hg]
  · intro st h hg
    simp [test_admin_get_all_orders, hg]
  · intro st h hg
    simp [test_get_inventory, hg]
  · intro st h hg
    simp [test_reserve_inventory, hg]
  · intro st h hg
    simp [test_get_product_reviews, hg]
  · intro st h hg
    rcases hg with hg | hg <;> simp [test_cross_service_cart_order_flow, hg]

/-- C5 witness: with a fresh state (no token), the current-user step is
SKIPPED with no call issued and nothing changed. -/
theorem c5_missing_precondition_skips_witness :
    test_get_current_user (initState [] 0) [] =
      (setSkip (mkFlow "Get Current User" "A") "No auth token", initState [] 0, []) :=
  c5_missing_precondition_skips.1 (initState [] 0) [] rfl

/-- C4 (amended): a request completing with status 400 or above on a
step's main call is classified FAIL by every flow step, with two
exceptions read off the source: the negative-auth (JWT) step, which is
PASS exactly on 401 and WARNING on any other completed status, and the
notification step, which is WARNING on any completed non-200 status. -/
theorem c4_error_status_fails :
    (∀ (st : EngineState) (h : Health) (status : Nat)
       (body : Except String Json) (text : String) (lat : Rat)
       (rest : List NetResult),
       st.script = NetResult.ok status body text lat :: rest → 400 ≤ status →
       (test_user_registration st h).1.result = TestResult.FAIL) ∧
    (∀ (st : EngineState) (h : Health) (email password role : String) (status : Nat)
       (body : Except String Json) (text : String) (lat : Rat)
       (rest : List NetResult),
       st.script = NetResult.ok status body text lat :: rest → 400 ≤ status →
       (test_user_login st h email password role).1.result = TestResult.FAIL) ∧
    (∀ (st : EngineState) (h : Health) (status : Nat)
       (body : Except String Json) (text : String) (lat : Rat)
       (rest : List NetResult),
       optTruthy st.customer_token = true →
       st.script = NetResult.ok status body text lat :: rest → 400 ≤ status →
       (test_get_current_user st h).1.result = TestResult.FAIL) ∧
    (∀ (st : EngineState) (h : Health) (status : Nat)
       (body : Except String Json) (text : String) (lat : Rat)
       (rest : List NetResult),
       st.script = NetResult.ok status body text lat :: rest → 400 ≤ status →
       (test_get_categories st h).1.result = TestResult.FAIL) ∧
    (∀ (st : EngineState) (h : Health) (status : Nat)
       (body : Except String Json) (text : String) (lat : Rat)
       (rest : List NetResult),
       st.script = NetResult.ok status body text lat :: rest → 400 ≤ status →
       (test_get_products st h).1.result = TestResult.FAIL) ∧
    (∀ (st : EngineState) (h : Health) (status : Nat)
       (body : Except String Json) (text : String) (lat : Rat)
       (rest : List NetResult),
       st.script = NetResult.ok status body text lat :: rest → 400 ≤ status →
       (test_search_products st h).1.result = TestResult.FAIL) ∧
    (∀ (st : EngineState) (h : Health) (status : Nat)
       (body : Except String Json) (text : String) (lat : Rat)
       (rest : List NetResult),
       optTruthy st.test_product_id = true →
       st.script = NetResult.ok status body text lat :: rest → 400 ≤ status →
       (test_get_product_detail st h).1.result = TestResult.FAIL) ∧
    (∀ (st : EngineState) (h : Health) (status : Nat)
       (body : Except String Json) (text : String) (lat : Rat)
       (rest : List NetResult),
       optTruthy st.customer_token = true →
       st.script = NetResult.ok status body text lat :: rest → 400 ≤ status →
       (test_create_address st h).1.result = TestResult.FAIL) ∧
    (∀ (st : EngineState) (h : Health) (status : Nat)
       (body : Except String Json) (text : String) (lat : Rat)
       (rest : List NetResult),
       optTruthy st.customer_token = true →
       st.script = NetResult.ok status body text lat :: rest → 400 ≤ status →
       (test_get_addresses st h).1.result = TestResult.FAIL) ∧
    (∀ (st : EngineState) (h : Health) (status : Nat)
       (body : Except String Json) (text : String) (lat : Rat)
       (rest : List NetResult),
       optTruthy st.customer_token = true →
       st.script = NetResult.ok status body text lat :: rest → 400 ≤ status →
       (test_get_cart st h).1.result = TestResult.FAIL) ∧
    (∀ (st : EngineState) (h : Health) (status : Nat)
       (body : Except String Json) (text : String) (lat : Rat)
       (rest : List NetResult),
       optTruthy st.customer_token = true →
       optTruthy st.test_cart_item_id = true →
       st.script = NetResult.ok status body text lat :: rest → 400 ≤ status →
       (test_update_cart_item st h).1.result = TestResult.FAIL) ∧
    (∀ (st : EngineState) (h : Health) (status : Nat)
       (body : Except String Json) (text : String) (lat : Rat)
       (rest : List NetResult),
       optTruthy st.customer_token = true →
       optTruthy st.test_cart_item_id = true →
       st.script = NetResult.ok status body text lat :: rest → 400 ≤ status →
       (test_remove_from_cart st h).1.result = TestResult.FAIL) ∧
    (∀ (st : EngineState) (h : Health) (status : Nat)
       (body : Except String Json) (text : String) (lat : Rat)
       (rest : List NetResult),
       optTruthy st.customer_token = true →
       optTruthy st.test_address_id = true →
       optTruthy st.test_cart_item_id = true →
       st.script = NetResult.ok status body text lat :: rest → 400 ≤ status →
       (test_create_payment_intent st h).1.result = TestResult.FAIL) ∧
    (∀ (st : EngineState) (h : Health) (status : Nat)
       (body : Except String Json) (text : String) (lat : Rat)
       (rest : List NetResult),
       optTruthy st.customer_token = true →
       st.script = NetResult.ok status body text lat :: rest → 400 ≤ status →
       (test_get_orders st h).1.result = TestResult.FAIL) ∧
    (∀ (st : EngineState) (h : Health) (status : Nat)
       (body : Except String Json) (text : String) (lat : Rat)
       (rest : List NetResult),
       optTruthy st.customer_token = true →
       optTruthy st.test_order_id = true →
       st.script = NetResult.ok status body text lat :: rest → 400 ≤ status →
       (test_get_order_detail st h).1.result = TestResult.FAIL) ∧
    (∀ (st : EngineState) (h : Health) (status : Nat)
       (body : Except String Json) (text : String) (lat : Rat)
       (rest : List NetResult),
       optTruthy st.admin_token = true →
       st.script = NetResult.ok status body text lat :: rest → 400 ≤ status →
       (test_admin_create_category st h).1.result = TestResult.FAIL) ∧
    (∀ (st : EngineState) (h : Health) (status : Nat)
       (body : Except String Json) (text : String) (lat : Rat)
       (rest : List NetResult),
       optTruthy st.admin_token = true →
       optTruthy st.test_order_id = true →
       st.script = NetResult.ok status body text lat :: rest → 400 ≤ status →
       (test_admin_update_order_status st h).1.result = TestResult.FAIL) ∧
    (∀ (st : EngineState) (h : Health) (status : Nat)
       (body : Except String Json) (text : String) (lat : Rat)
       (rest : List NetResult),
       optTruthy st.admin_token = true →
       st.script = NetResult.ok status body text lat :: rest → 400 ≤ status →
       (test_admin_get_all_orders st h).1.result = TestResult.FAIL) ∧
    (∀ (st : EngineState) (h : Health) (status : Nat)
       (body : Except String Json) (text : String) (lat : Rat)
       (rest : List NetResult),
       st.script = NetResult.ok status body text lat :: rest → 400 ≤ status →
       (test_get_stores st h).1.result = TestResult.FAIL) ∧
    (∀ (st : EngineState) (h : Health) (status : Nat)
       (body : Except String Json) (text : String) (lat : Rat)
       (rest : List NetResult),
       st.script = NetResult.ok status body text lat :: rest → 400 ≤ status →
       (test_get_nearby_stores st h).1.result = TestResult.FAIL) ∧
    (∀ (st : EngineState) (h : Health) (status : Nat)
       (body : Except String Json) (text : String) (lat : Rat)
       (rest : List NetResult),
       optTruthy st.test_product_id = true →
       st.script = NetResult.ok status body text lat :: rest → 400 ≤ status →
       (test_get_product_reviews st h).1.result = TestResult.FAIL) ∧
    (∀ (st : EngineState) (h : Health) (pk vk : List (String × Json))
       (vs : List Json) (t1 : String) (l1 : Rat) (s2 : Nat)
       (b2 : Except String Json) (t2 : String) (l2 : Rat) (rest : List NetResult),
       optTruthy st.customer_token = true →
       optTruthy st.test_product_id = true →
       st.script = NetResult.ok 200 (Except.ok (Json.obj pk)) t1 l1 ::
         NetResult.ok s2 b2 t2 l2 :: rest →
       List.lookup "variants" pk = some (Json.arr (Json.obj vk :: vs)) →
       400 ≤ s2 →
       (test_add_to_cart st h).1.result = TestResult.FAIL) ∧
    (∀ (st : EngineState) (h : Health) (pk vk : List (String × Json))
       (vs : List Json) (t1 : String) (l1 : Rat) (s2 : Nat)
       (b2 : Except String Json) (t2 : String) (l2 : Rat) (rest : List NetResult),
       optTruthy st.test_product_id = true →
       st.script = NetResult.ok 200 (Except.ok (Json.obj pk)) t1 l1 ::
         NetResult.ok s2 b2 t2 l2 :: rest →
       List.lookup "variants" pk = some (Json.arr (Json.obj vk :: vs)) →
       400 ≤ s2 →
       (test_get_inventory st h).1.result = TestResult.FAIL) ∧
    (∀ (st : EngineState) (h : Health) (pk vk : List (String × Json))
       (vs : List Json) (t1 : String) (l1 : Rat) (s2 : Nat)
       (b2 : Except String Json) (t2 : String) (l2 : Rat) (rest : List NetResult),
       optTruthy st.test_product_id = true →
       st.script = NetResult.ok 200 (Except.ok (Json.obj pk)) t1 l1 ::
         NetResult.ok s2 b2 t2 l2 :: rest →
       List.lookup "variants" pk = some (Json.arr (Json.obj vk :: vs)) →
       400 ≤ s2 →
       (test_reserve_inventory st h).1.result = TestResult.FAIL) ∧
    (∀ (st : EngineState) (h : Health) (s1 : Nat) (b1 : Except String Json)
       (t1 : String) (l1 : Rat) (rest : List NetResult),
       optTruthy st.customer_token = true → optTruthy st.test_address_id = true →
       st.script = NetResult.ok s1 b1 t1 l1 :: rest → 400 ≤ s1 →
       (test_cross_service_cart_order_flow st h).1.result = TestResult.FAIL) ∧
    (∀ (st : EngineState) (h : Health) (pk vk : List (String × Json))
       (vs : List Json) (t1 : String) (l1 : Rat) (s2 : Nat)
       (b2 : Except String Json) (t2 : String) (l2 : Rat) (rest : List NetResult),
       optTruthy st.customer_token = true → optTruthy st.test_address_id = true →
       st.script = NetResult.ok 200 (Except.ok (Json.obj pk)) t1 l1 ::
         NetResult.ok s2 b2 t2 l2 :: rest →
       List.lookup "variants" pk = some (Json.arr (Json.obj vk :: vs)) →
       400 ≤ s2 →
       (test_cross_service_cart_order_flow st h).1.result = TestResult.FAIL) ∧
    (∀ (st : EngineState) (h : Health) (pk vk : List (String × Json))
       (vs : List Json) (t1 : String) (l1 : Rat)
       (b2 : Except String Json) (t2 : String) (l2 : Rat) (s3 : Nat)
       (b3 : Except String Json) (t3 : String) (l3 : Rat) (rest : List NetResult),
       optTruthy st.customer_token = true → optTruthy st.test_address_id = true →
       st.script = NetResult.ok 200 (Except.ok (Json.obj pk)) t1 l1 ::
         NetResult.ok 201 b2 t2 l2 :: NetResult.ok s3 b3 t3 l3 :: rest →
       List.lookup "variants" pk = some (Json.arr (Json.obj vk :: vs)) →
       400 ≤ s3 →
       (test_cross_service_cart_order_flow st h).1.result = TestResult.FAIL) ∧
    (∀ (st : EngineState) (h : Health) (status : Nat)
       (body : Except String Json) (text : String) (lat : Rat)
       (rest : List NetResult),
       st.script = NetResult.ok status body text lat :: rest → 400 ≤ status →
       (test_jwt_expiration_handling st h).1.result =
         (if status = 401 then TestResult.PASS else TestResult.WARNING)) ∧
    (∀ (st : EngineState) (h : Health) (status : Nat)
       (body : Except String Json) (text : String) (lat : Rat)
       (rest : List NetResult),
       st.script = NetResult.ok status body text lat :: rest → 400 ≤ status →
       (test_notification_service st h).1.result = TestResult.WARNING) := by
  refine ⟨?_, ?_, ?_, ?_, ?_, ?_, ?_, ?_, ?_, ?_, ?_, ?_, ?_, ?_, ?_, ?_, ?_, ?_, ?_, ?_, ?_, ?_, ?_, ?_, ?_, ?_, ?_, ?_, ?_⟩
  · intro st h status body text lat rest hs h400
    obtain ⟨sc, clk, a1, a2, a3, a4, a5, a6, a7, a8, a9⟩ := st
    simp only at hs
    subst hs
    have hne : status ≠ 201 := by omega
    simp [test_user_registration, make_request, log_api_call, hne, setFail, mkFlow]
  · intro st h email password role status body text lat rest hs h400
    obtain ⟨sc, clk, a1, a2, a3, a4, a5, a6, a7, a8, a9⟩ := st
    simp only at hs
    subst hs
    have hne : status ≠ 200 := by omega
    simp [test_user_login, make_request, log_api_call, hne, setFail, mkFlow]
  · intro st h status body text lat rest hg1 hs h400
    obtain ⟨sc, clk, a1, a2, a3, a4, a5, a6, a7, a8, a9⟩ := st
    simp only at hg1 hs
    subst hs
    have hne : status ≠ 200 := by omega
    simp [test_get_current_user, make_request, log_api_call, hg1, hne, setFail, mkFlow]
  · intro st h status body text lat rest hs h400
    obtain ⟨sc, clk, a1, a2, a3, a4, a5, a6, a7, a8, a9⟩ := st
    simp only at hs
    subst hs
    have hne : status ≠ 200 := by omega
    simp [test_get_categories, make_request, log_api_call, hne, setFail, mkFlow]
  · intro st h status body text lat rest hs h400
    obtain ⟨sc, clk, a1, a2, a3, a4, a5, a6, a7, a8, a9⟩ := st
    simp only at hs
    subst hs
    have hne : status ≠ 200 := by omega
    simp [test_get_products, make_request, log_api_call, hne, setFail, mkFlow]
  · intro st h status body text lat rest hs h400
    obtain ⟨sc, clk, a1, a2, a3, a4, a5, a6, a7, a8, a9⟩ := st
    simp only at hs
    subst hs
    have hne : status ≠ 200 := by omega
    simp [test_search_products, make_request, log_api_call, hne, setFail, mkFlow]
  · intro st h status body text lat rest hg1 hs h400
    obtain ⟨sc, clk, a1, a2, a3, a4, a5, a6, a7, a8, a9⟩ := st
    simp only at hg1 hs
    subst hs
    have hne : status ≠ 200 := by omega
    simp [test_get_product_detail, make_request, log_api_call, hg1, hne, setFail, mkFlow]
  · intro st h status body text lat rest hg1 hs h400
    obtain ⟨sc, clk, a1, a2, a3, a4, a5, a6, a7, a8, a9⟩ := st
    simp only at hg1 hs
    subst hs
    have hne : status ≠ 201 := by omega
    simp [test_create_address, make_request, log_api_call, hg1, hne, setFail, mkFlow]
  · intro st h status body text lat rest hg1 hs h400
    obtain ⟨sc, clk, a1, a2, a3, a4, a5, a6, a7, a8, a9⟩ := st
    simp only at hg1 hs
    subst hs
    have hne : status ≠ 200 := by omega
    simp [test_get_addresses, make_request, log_api_call, hg1, hne, setFail, mkFlow]
  · intro st h status body text lat rest hg1 hs h400
    obtain ⟨sc, clk, a1, a2, a3, a4, a5, a6, a7, a8, a9⟩ := st
    simp only at hg1 hs
    subst hs
    have hne : status ≠ 200 := by omega
    simp [test_get_cart, make_request, log_api_call, hg1, hne, setFail, mkFlow]
  · intro st h status body text lat rest hg1 hg2 hs h400
    obtain ⟨sc, clk, a1, a2, a3, a4, a5, a6, a7, a8, a9⟩ := st
    simp only at hg1 hg2 hs
    subst hs
    have hne : status ≠ 200 := by omega
    simp [test_update_cart_item, make_request, log_api_call, hg1, hg2, hne, setFail, mkFlow]
  · intro st h status body text lat rest hg1 hg2 hs h400
    obtain ⟨sc, clk, a1, a2, a3, a4, a5, a6, a7, a8, a9⟩ := st
    simp only at hg1 hg2 hs
    subst hs
    have hne : status ≠ 200 := by omega
    simp [test_remove_from_cart, make_request, log_api_call, hg1, hg2, hne, setFail, mkFlow]
  · intro st h status body text lat rest hg1 hg2 hg3 hs h400
    obtain ⟨sc, clk, a1, a2, a3, a4, a5, a6, a7, a8, a9⟩ := st
    simp only at hg1 hg2 hg3 hs
    subst hs
    have hne : status ≠ 200 := by omega
    simp [test_create_payment_intent, make_request, log_api_call, hg1, hg2, hg3, hne, setFail, mkFlow]
  · intro st h status body text lat rest hg1 hs h400
    obtain ⟨sc, clk, a1, a2, a3, a4, a5, a6, a7, a8, a9⟩ := st
    simp only at hg1 hs
    subst hs
    have hne : status ≠ 200 := by omega
    simp [test_get_orders, make_request, log_api_call, hg1, hne, setFail, mkFlow]
  · intro st h status body text lat rest hg1 hg2 hs h400
    obtain ⟨sc, clk, a1, a2, a3, a4, a5, a6, a7, a8, a9⟩ := st
    simp only at hg1 hg2 hs
    subst hs
    have hne : status ≠ 200 := by omega
    simp [test_get_order_detail, make_request, log_api_call, hg1, hg2, hne, setFail, mkFlow]
  · intro st h status body text lat rest hg1 hs h400
    obtain ⟨sc, clk, a1, a2, a3, a4, a5, a6, a7, a8, a9⟩ := st
    simp only at hg1 hs
    subst hs
    have hne : status ≠ 201 := by omega
    simp [test_admin_create_category, make_request, log_api_call, hg1, hne, setFail, mkFlow]
  · intro st h status body text lat rest hg1 hg2 hs h400
    obtain ⟨sc, clk, a1, a2, a3, a4, a5, a6, a7, a8, a9⟩ := st
    simp only at hg1 hg2 hs
    subst hs
    have hne : status ≠ 200 := by omega
    simp [test_admin_update_order_status, make_request, log_api_call, hg1, hg2, hne, setFail, mkFlow]
  · intro st h status body text lat rest hg1 hs h400
    obtain ⟨sc, clk, a1, a2, a3, a4, a5, a6, a7, a8, a9⟩ := st
    simp only at hg1 hs
    subst hs
    have hne : status ≠ 200 := by omega
    simp [test_admin_get_all_orders, make_request, log_api_call, hg1, hne, setFail, mkFlow]
  · intro st h status body text lat rest hs h400
    obtain ⟨sc, clk, a1, a2, a3, a4, a5, a6, a7, a8, a9⟩ := st
    simp only at hs
    subst hs
    have hne : status ≠ 200 := by omega
    simp [test_get_stores, make_request, log_api_call, hne, setFail, mkFlow]
  · intro st h status body text lat rest hs h400
    obtain ⟨sc, clk, a1, a2, a3, a4, a5, a6, a7, a8, a9⟩ := st
    simp only at hs
    subst hs
    have hne : status ≠ 200 := by omega
    simp [test_get_nearby_stores, make_request, log_api_call, hne, setFail, mkFlow]
  · intro st h status body text lat rest hg1 hs h400
    obtain ⟨sc, clk, a1, a2, a3, a4, a5, a6, a7, a8, a9⟩ := st
    simp only at hg1 hs
    subst hs
    have hne : status ≠ 200 := by omega
    simp [test_get_product_reviews, make_request, log_api_call, hg1, hne, setFail, mkFlow]
  · intro st h pk vk vs t1 l1 s2 b2 t2 l2 rest hg1 hg2 hs hvar h400
    obtain ⟨sc, clk, a1, a2, a3, a4, a5, a6, a7, a8, a9⟩ := st
    simp only at hg1 hg2 hs
    subst hs
    have hne : s2 ≠ 201 := by omega
    simp [test_add_to_cart, make_request, log_api_call, hg1, hg2, hvar, hne, Json.truthy,
      setFail, setSkip, mkFlow]
  · intro st h pk vk vs t1 l1 s2 b2 t2 l2 rest hg1 hs hvar h400
    obtain ⟨sc, clk, a1, a2, a3, a4, a5, a6, a7, a8, a9⟩ := st
    simp only at hg1 hs
    subst hs
    have hne : s2 ≠ 200 := by omega
    simp [test_get_inventory, make_request, log_api_call, hg1, hvar, hne, Json.truthy,
      setFail, setSkip, mkFlow]
  · intro st h pk vk vs t1 l1 s2 b2 t2 l2 rest hg1 hs hvar h400
    obtain ⟨sc, clk, a1, a2, a3, a4, a5, a6, a7, a8, a9⟩ := st
    simp only at hg1 hs
    subst hs
    have hne : s2 ≠ 200 := by omega
    simp [test_reserve_inventory, make_request, log_api_call, hg1, hvar, hne, Json.truthy,
      setFail, setSkip, mkFlow]
  · intro st h s1 b1 t1 l1 rest hg1 hg2 hs h400
    obtain ⟨sc, clk, a1, a2, a3, a4, a5, a6, a7, a8, a9⟩ := st
    simp only at hg1 hg2 hs
    subst hs
    have hne : s1 ≠ 200 := by omega
    simp [test_cross_service_cart_order_flow, make_request, log_api_call,
      hg1, hg2, hne, setFail, mkFlow]
  · intro st h pk vk vs t1 l1 s2 b2 t2 l2 rest hg1 hg2 hs hvar h400
    obtain ⟨sc, clk, a1, a2, a3, a4, a5, a6, a7, a8, a9⟩ := st
    simp only at hg1 hg2 hs
    subst hs
    have hne : s2 ≠ 201 := by omega
    simp [test_cross_service_cart_order_flow, make_request, log_api_call,
      hg1, hg2, hvar, hne, Json.truthy, setFail, mkFlow]
  · intro st h pk vk vs t1 l1 b2 t2 l2 s3 b3 t3 l3 rest hg1 hg2 hs hvar h400
    obtain ⟨sc, clk, a1, a2, a3, a4, a5, a6, a7, a8, a9⟩ := st
    simp only at hg1 hg2 hs
    subst hs
    have hne : s3 ≠ 200 := by omega
    simp [test_cross_service_cart_order_flow, make_request, log_api_call,
      hg1, hg2, hvar, hne, Json.truthy, setFail, mkFlow]
  · intro st h status body text lat rest hs h400
    obtain ⟨sc, clk, a1, a2, a3, a4, a5, a6, a7, a8, a9⟩ := st
    simp only at hs
    subst hs
    by_cases h401 : status = 401 <;>
      simp [test_jwt_expiration_handling, make_request, log_api_call, h401,
        setPass, setWarn, mkFlow]
  · intro st h status body text lat rest hs h400
    obtain ⟨sc, clk, a1, a2, a3, a4, a5, a6, a7, a8, a9⟩ := st
    simp only at hs
    subst hs
    have hne : status ≠ 200 := by omega
    simp [test_notification_service, make_request, log_api_call, hne,
      setWarn, mkFlow]

/-- C4 counterexample: a completed 500 on the notification step's main
call is classified WARNING, and a completed 401 on the negative-auth
step's call is classified PASS; both statuses are at least 400, so the
claim that such statuses are always FAIL is false. -/
theorem c4_counterexample :
    (test_notification_service
      (initState [NetResult.ok 500 (Except.ok (Json.obj [])) "" 1] 0) []).1.result =
        TestResult.WARNING ∧
    (test_jwt_expiration_handling
      (initState [NetResult.ok 401 (Except.ok (Json.obj [])) "" 1] 0) []).1.result =
        TestResult.PASS := by
  refine ⟨?_, ?_⟩ <;> rfl

/-- C4 witness: a completed 500 on the current-user step (token present)
is FAIL, and the notification step turns the same status into WARNING. -/
theorem c4_error_status_fails_witness :
    (test_get_current_user
      { initState [NetResult.ok 500 (Except.ok (Json.obj [])) "" 1] 0
        with customer_token := some (Json.str "t") } []).1.result = TestResult.FAIL ∧
    (test_notification_service
      (initState [NetResult.ok 500 (Except.ok (Json.obj [])) "" 1] 0) []).1.result =
        TestResult.WARNING := by
  constructor
  · exact c4_error_status_fails.2.2.1
      { initState [NetResult.ok 500 (Except.ok (Json.obj [])) "" 1] 0
        with customer_token := some (Json.str "t") } [] 500 (Except.ok (Json.obj []))
      "" 1 [] rfl rfl (by omega)
  · exact c4_error_status_fails.2.2.2.2.2.2.2.2.2.2.2.2.2.2.2.2.2.2.2.2.2.2.2.2.2.2.2.2
      (initState [NetResult.ok 500 (Except.ok (Json.obj [])) "" 1] 0) [] 500
      (Except.ok (Json.obj [])) "" 1 [] rfl (by omega)
